import Mathlib

/-!
# Verification of the prosperaweb multi-tenant backend

Shallow embedding of the Express/Postgres server (src/unnamed/part_000,
second revision: the "safe migrations" server).  The backing store is a
record of tables; each migration statement of `initDB` (source lines
409-625) becomes a function on that record, with statements that can fail
in Postgres (duplicate-key constraint additions, foreign-key validation,
the backfill UPDATE hitting a unique constraint) returning `Except`.
A failing SQL statement rolls back atomically, so the runner keeps the
pre-statement state and — like the `catch` block of the source — absorbs
the error and lets the process continue.

Monetary NUMERIC(15,2) columns are modelled as integer cents; DATE as a
day number; `created_at` timestamps are never read or written by any of
the verified operations and are omitted from the row model.
-/

namespace Prospera

/-- A row of the `users` table (id SERIAL, name, pin). -/
structure UserRow where
  id : Nat
  name : String
  pin : String
deriving DecidableEq, Repr

/-- A row of the `transactions` table.  `type'` stands for the SQL column
`type`; `amount` is NUMERIC(15,2) in cents; `date` is a day number. -/
structure TxRow where
  id : Nat
  user_id : Option Nat
  description : String
  amount : Int
  type' : String
  category : String
  subcategory : String
  date : Nat
  payment_method : String
  is_recurring : Bool
  card_id : Option Nat
deriving DecidableEq, Repr

/-- A row of the `goals` table. -/
structure GoalRow where
  id : Nat
  user_id : Option Nat
  name : String
  target : Int
  current_amount : Int
  color : String
deriving DecidableEq, Repr

/-- A row of the `cards` table. -/
structure CardRow where
  id : Nat
  user_id : Option Nat
  name : String
  limit_amount : Int
  used_amount : Int
  due_day : Nat
  color : String
deriving DecidableEq, Repr

/-- A row of the `investments` table. -/
structure InvRow where
  id : Nat
  user_id : Option Nat
  name : String
  type' : String
  value_amount : Int
  return_rate : String
deriving DecidableEq, Repr

/-- A row of the `budgets` table. -/
structure BudgetRow where
  id : Nat
  user_id : Option Nat
  category : String
  limit_amount : Int
deriving DecidableEq, Repr

/-- Uniform access to the `user_id` column of the five resource row
types; writing the column is exactly what a later read sees. -/
class OwnedRow (ρ : Type) where
  userId : ρ → Option Nat
  setUserId : ρ → Option Nat → ρ
  userId_set : ∀ r v, userId (setUserId r v) = v

instance : OwnedRow TxRow where
  userId r := r.user_id
  setUserId r v := {r with user_id := v}
  userId_set _ _ := rfl

instance : OwnedRow GoalRow where
  userId r := r.user_id
  setUserId r v := {r with user_id := v}
  userId_set _ _ := rfl

instance : OwnedRow CardRow where
  userId r := r.user_id
  setUserId r v := {r with user_id := v}
  userId_set _ _ := rfl

instance : OwnedRow InvRow where
  userId r := r.user_id
  setUserId r v := {r with user_id := v}
  userId_set _ _ := rfl

instance : OwnedRow BudgetRow where
  userId r := r.user_id
  setUserId r v := {r with user_id := v}
  userId_set _ _ := rfl

/-- A resource table: its rows, whether the `user_id` column exists,
whether `user_id` carries NOT NULL, and the SERIAL sequence counter. -/
structure Table (ρ : Type) where
  rows : List ρ
  hasUserId : Bool
  userIdNotNull : Bool
  seq : Nat
deriving DecidableEq, Repr

/-- The `users` table with its SERIAL counter. -/
structure UsersTable where
  rows : List UserRow
  seq : Nat
deriving DecidableEq, Repr

/-- The whole backing store: six tables (absent = `none`), the named
constraints and indexes tracked by name exactly as `initDB` queries
`pg_constraint` / uses CREATE INDEX IF NOT EXISTS. -/
structure Store where
  users : Option UsersTable
  transactions : Option (Table TxRow)
  goals : Option (Table GoalRow)
  cards : Option (Table CardRow)
  investments : Option (Table InvRow)
  budgets : Option (Table BudgetRow)
  pinUnique : Bool
  budgetsCategoryKey : Bool
  budgetsUserCategoryUnique : Bool
  txFk : Bool
  goalsFk : Bool
  cardsFk : Bool
  invFk : Bool
  budgetsFk : Bool
  idxTx : Bool
  idxGoals : Bool
  idxCards : Bool
  idxInv : Bool
  idxBudgets : Bool
deriving DecidableEq, Repr

/-- Rows of `users`; an absent table has no rows. -/
def usersRowsOf (s : Store) : List UserRow :=
  match s.users with
  | none => []
  | some t => t.rows

/-- Rows of `transactions`. -/
def txRowsOf (s : Store) : List TxRow :=
  match s.transactions with
  | none => []
  | some t => t.rows

/-- Rows of `goals`. -/
def goalsRowsOf (s : Store) : List GoalRow :=
  match s.goals with
  | none => []
  | some t => t.rows

/-- Rows of `cards`. -/
def cardsRowsOf (s : Store) : List CardRow :=
  match s.cards with
  | none => []
  | some t => t.rows

/-- Rows of `investments`. -/
def invRowsOf (s : Store) : List InvRow :=
  match s.investments with
  | none => []
  | some t => t.rows

/-- Rows of `budgets`. -/
def budgetsRowsOf (s : Store) : List BudgetRow :=
  match s.budgets with
  | none => []
  | some t => t.rows

/-! ## Migration engine (`initDB`, source lines 409-625) -/

/-- A table freshly created by the canonical CREATE TABLE IF NOT EXISTS
definitions of `initDB`: empty, with the `user_id` column, nullable,
sequence at 1. -/
def freshTable {ρ : Type} : Table ρ :=
  {rows := [], hasUserId := true, userIdNotNull := false, seq := 1}

/-- CREATE TABLE IF NOT EXISTS on a resource table: keep it if present,
create the canonical empty table otherwise. -/
def ensureTableT {ρ : Type} (o : Option (Table ρ)) : Table ρ :=
  o.getD freshTable

/-- ADD COLUMN IF NOT EXISTS user_id on a table: afterwards the column is
present; a table that already had it is unchanged. -/
def addUserIdColumn {ρ : Type} (t : Table ρ) : Table ρ :=
  {t with hasUserId := true}

/-- `CREATE TABLE IF NOT EXISTS users` (lines 412-419). -/
def ensureUsersTable (s : Store) : Store :=
  {s with users := some (s.users.getD {rows := [], seq := 1})}

/-- Lines 422-431: add `users_pin_unique UNIQUE (pin)` if the named
constraint is absent.  The ALTER fails (and the statement rolls back)
exactly when the constraint is still missing and two existing user rows
share a pin; otherwise the constraint is in place afterwards. -/
def addPinUnique (s : Store) : Except Unit Store :=
  if ¬ s.pinUnique ∧ ¬ ((usersRowsOf s).map (fun u => u.pin)).Nodup then
    .error ()
  else .ok {s with pinUnique := true}

/-- `CREATE TABLE IF NOT EXISTS transactions` (lines 434-449). -/
def ensureTxTable (s : Store) : Store :=
  {s with transactions := some (ensureTableT s.transactions)}

/-- `ensureColumn('transactions', 'user_id INTEGER')` (line 450):
ADD COLUMN IF NOT EXISTS. -/
def ensureTxColumn (s : Store) : Store :=
  {s with transactions := s.transactions.map addUserIdColumn}

/-- `ensureIndex` for idx_transactions_user_date (line 451):
CREATE INDEX IF NOT EXISTS, so afterwards the index exists. -/
def ensureTxIndex (s : Store) : Store :=
  {s with idxTx := true}

/-- `CREATE TABLE IF NOT EXISTS goals` (lines 454-464). -/
def ensureGoalsTable (s : Store) : Store :=
  {s with goals := some (ensureTableT s.goals)}

/-- `ensureColumn('goals', ...)` (line 465). -/
def ensureGoalsColumn (s : Store) : Store :=
  {s with goals := s.goals.map addUserIdColumn}

/-- `ensureIndex` for idx_goals_user (line 466). -/
def ensureGoalsIndex (s : Store) : Store :=
  {s with idxGoals := true}

/-- `CREATE TABLE IF NOT EXISTS cards` (lines 469-480). -/
def ensureCardsTable (s : Store) : Store :=
  {s with cards := some (ensureTableT s.cards)}

/-- `ensureColumn('cards', ...)` (line 481). -/
def ensureCardsColumn (s : Store) : Store :=
  {s with cards := s.cards.map addUserIdColumn}

/-- `ensureIndex` for idx_cards_user (line 482). -/
def ensureCardsIndex (s : Store) : Store :=
  {s with idxCards := true}

/-- `CREATE TABLE IF NOT EXISTS investments` (lines 485-495). -/
def ensureInvTable (s : Store) : Store :=
  {s with investments := some (ensureTableT s.investments)}

/-- `ensureColumn('investments', ...)` (line 496). -/
def ensureInvColumn (s : Store) : Store :=
  {s with investments := s.investments.map addUserIdColumn}

/-- `ensureIndex` for idx_investments_user (line 497). -/
def ensureInvIndex (s : Store) : Store :=
  {s with idxInv := true}

/-- `CREATE TABLE IF NOT EXISTS budgets` (lines 500-508). -/
def ensureBudgetsTable (s : Store) : Store :=
  {s with budgets := some (ensureTableT s.budgets)}

/-- `ensureColumn('budgets', ...)` (line 509). -/
def ensureBudgetsColumn (s : Store) : Store :=
  {s with budgets := s.budgets.map addUserIdColumn}

/-- The non-null (user_id, category) pairs of a budgets row list: the keys
governed by `budgets_user_category_unique` (NULL user_ids never collide
under a Postgres UNIQUE constraint). -/
def budgetKeys (l : List BudgetRow) : List (Nat × String) :=
  l.filterMap (fun r => r.user_id.map (fun u => (u, r.category)))

/-- Lines 512-536, one atomic DO block: drop `budgets_category_key` if it
exists, then add `budgets_user_category_unique` if absent.  The ADD fails
exactly when the constraint is still missing and two rows share a
non-null (user_id, category) pair; the whole statement (including the
DROP) then rolls back.  Otherwise the old constraint is gone and the new
one is in place afterwards. -/
def replaceBudgetsUnique (s : Store) : Except Unit Store :=
  if ¬ s.budgetsUserCategoryUnique ∧ ¬ (budgetKeys (budgetsRowsOf s)).Nodup then
    .error ()
  else .ok {s with budgetsCategoryKey := false, budgetsUserCategoryUnique := true}

/-- `ensureIndex` for idx_budgets_user (line 538). -/
def ensureBudgetsIndex (s : Store) : Store :=
  {s with idxBudgets := true}

/-- Does an optional `user_id` value satisfy the FK to `users(id)`? -/
def refsUsers (users : List UserRow) (u : Option Nat) : Bool :=
  match u with
  | none => true
  | some v => users.any (fun w => decide (w.id = v))

/-- ADD CONSTRAINT transactions_user_fk if absent (lines 544-548); the
validation of existing rows fails on an orphaned non-null user_id when
the constraint still has to be added. -/
def addTxFk (s : Store) : Except Unit Store :=
  if ¬ s.txFk ∧ ¬ (txRowsOf s).all (fun r => refsUsers (usersRowsOf s) r.user_id) then
    .error ()
  else .ok {s with txFk := true}

/-- ADD CONSTRAINT goals_user_fk if absent (lines 550-554). -/
def addGoalsFk (s : Store) : Except Unit Store :=
  if ¬ s.goalsFk ∧ ¬ (goalsRowsOf s).all (fun r => refsUsers (usersRowsOf s) r.user_id) then
    .error ()
  else .ok {s with goalsFk := true}

/-- ADD CONSTRAINT cards_user_fk if absent (lines 556-560). -/
def addCardsFk (s : Store) : Except Unit Store :=
  if ¬ s.cardsFk ∧ ¬ (cardsRowsOf s).all (fun r => refsUsers (usersRowsOf s) r.user_id) then
    .error ()
  else .ok {s with cardsFk := true}

/-- ADD CONSTRAINT investments_user_fk if absent (lines 562-566). -/
def addInvFk (s : Store) : Except Unit Store :=
  if ¬ s.invFk ∧ ¬ (invRowsOf s).all (fun r => refsUsers (usersRowsOf s) r.user_id) then
    .error ()
  else .ok {s with invFk := true}

/-- ADD CONSTRAINT budgets_user_fk if absent (lines 568-572). -/
def addBudgetsFk (s : Store) : Except Unit Store :=
  if ¬ s.budgetsFk ∧ ¬ (budgetsRowsOf s).all (fun r => refsUsers (usersRowsOf s) r.user_id) then
    .error ()
  else .ok {s with budgetsFk := true}

/-- Lines 541-574, one atomic DO block adding the five foreign keys in
order; on a failure the whole statement rolls back, which the runner
realises by discarding the intermediate state. -/
def addForeignKeys (s : Store) : Except Unit Store :=
  match addTxFk s with
  | .error e => .error e
  | .ok s1 =>
    match addGoalsFk s1 with
    | .error e => .error e
    | .ok s2 =>
      match addCardsFk s2 with
      | .error e => .error e
      | .ok s3 =>
        match addInvFk s3 with
        | .error e => .error e
        | .ok s4 => addBudgetsFk s4

/-- The per-row effect of `UPDATE t SET user_id = uid WHERE user_id IS NULL`. -/
def fillUser {ρ : Type} [OwnedRow ρ] (uid : Nat) (r : ρ) : ρ :=
  match OwnedRow.userId r with
  | none => OwnedRow.setUserId r (some uid)
  | some _ => r

/-- `SELECT id FROM users ORDER BY id LIMIT 1` (line 586). -/
def firstUserId (s : Store) : Option Nat :=
  (((usersRowsOf s).map (fun u => u.id)).insertionSort (· ≤ ·)).head?

/-- Replace the row lists of the five resource tables. -/
def setResourceRows (s : Store) (tx : List TxRow) (g : List GoalRow)
    (c : List CardRow) (i : List InvRow) (b : List BudgetRow) : Store :=
  {s with
    transactions := s.transactions.map (fun t => {t with rows := tx}),
    goals := s.goals.map (fun t => {t with rows := g}),
    cards := s.cards.map (fun t => {t with rows := c}),
    investments := s.investments.map (fun t => {t with rows := i}),
    budgets := s.budgets.map (fun t => {t with rows := b})}

/-- The backfill UPDATE on budgets violates `budgets_user_category_unique`:
the constraint is present and assigning uid to the unowned rows produces a
duplicate non-null (user_id, category) pair. -/
def backfillBlocked (s : Store) (uid : Nat) : Prop :=
  s.budgetsUserCategoryUnique = true ∧
    ¬ (budgetKeys ((budgetsRowsOf s).map (fillUser uid))).Nodup

instance (s : Store) (uid : Nat) : Decidable (backfillBlocked s uid) := by
  unfold backfillBlocked
  infer_instance

/-- Lines 577-595, one atomic DO block: if exactly one user row exists,
set every NULL user_id in the five resource tables to that user's id.
The budgets UPDATE is subject to `budgets_user_category_unique`; if the
assignment would produce a duplicate non-null (user_id, category) pair the
statement fails and the whole block (all five UPDATEs) rolls back. -/
def backfillOwner (s : Store) : Except Unit Store :=
  if (usersRowsOf s).length = 1 then
    match firstUserId s with
    | none => .ok s
    | some uid =>
      if backfillBlocked s uid then .error ()
      else
        .ok (setResourceRows s
          ((txRowsOf s).map (fillUser uid))
          ((goalsRowsOf s).map (fillUser uid))
          ((cardsRowsOf s).map (fillUser uid))
          ((invRowsOf s).map (fillUser uid))
          ((budgetsRowsOf s).map (fillUser uid)))
  else .ok s

/-- Does every row of the list carry a non-null user_id? -/
def rowsAllOwned {ρ : Type} [OwnedRow ρ] (l : List ρ) : Bool :=
  l.all (fun r => (OwnedRow.userId r).isSome)

/-- The per-table effect of lines 598-619: SET NOT NULL on user_id, but
only when the null scan finds no NULL user_id. -/
def tightenT {ρ : Type} [OwnedRow ρ] (t : Table ρ) : Table ρ :=
  if rowsAllOwned t.rows ∧ ¬ t.userIdNotNull then
    {t with userIdNotNull := true}
  else t

/-- Lines 601-602: SET NOT NULL on transactions.user_id when no nulls. -/
def tightenTx (s : Store) : Store :=
  {s with transactions := s.transactions.map tightenT}

/-- Lines 604-605: SET NOT NULL on goals.user_id when no nulls. -/
def tightenGoals (s : Store) : Store :=
  {s with goals := s.goals.map tightenT}

/-- Lines 607-608: SET NOT NULL on cards.user_id when no nulls. -/
def tightenCards (s : Store) : Store :=
  {s with cards := s.cards.map tightenT}

/-- Lines 610-611: SET NOT NULL on investments.user_id when no nulls. -/
def tightenInv (s : Store) : Store :=
  {s with investments := s.investments.map tightenT}

/-- Lines 613-614: SET NOT NULL on budgets.user_id when no nulls. -/
def tightenBudgets (s : Store) : Store :=
  {s with budgets := s.budgets.map tightenT}

/-- Lines 598-619: the NOT NULL tightening block; each ALTER is guarded by
a null scan, so it cannot fail (its EXCEPTION handler is unreachable). -/
def tightenNotNull (s : Store) : Store :=
  tightenBudgets (tightenInv (tightenCards (tightenGoals (tightenTx s))))

/-- The tail of the run starting at the Backfilled stage: the backfill
statement, then (on success) the tightening block.  A backfill failure is
absorbed by the outer catch, so the run ends with the pre-backfill state. -/
def runFromBackfill (s : Store) : Store × Bool :=
  match backfillOwner s with
  | .error _ => (s, true)
  | .ok s1 => (tightenNotNull s1, false)

/-- The infallible stretch of `initDB` between the pin-constraint step and
the budgets-constraint step (lines 434-509): create each resource table if
absent, ensure its user_id column, and ensure its index, in source order. -/
def ensureResources (s : Store) : Store :=
  ensureBudgetsColumn (ensureBudgetsTable (ensureInvIndex (ensureInvColumn
    (ensureInvTable (ensureCardsIndex (ensureCardsColumn (ensureCardsTable
      (ensureGoalsIndex (ensureGoalsColumn (ensureGoalsTable (ensureTxIndex
        (ensureTxColumn (ensureTxTable s)))))))))))))

/-- The whole `initDB` (lines 409-625): the migration statements in source
order; every error is caught (line 622), logged, and the function returns
normally with the state reached so far.  The Bool records whether an error
was caught. -/
def initDBRun (s0 : Store) : Store × Bool :=
  let s1 := ensureUsersTable s0
  match addPinUnique s1 with
  | .error _ => (s1, true)
  | .ok s2 =>
    let s7 := ensureResources s2
    match replaceBudgetsUnique s7 with
    | .error _ => (s7, true)
    | .ok s8 =>
      let s9 := ensureBudgetsIndex s8
      match addForeignKeys s9 with
      | .error _ => (s9, true)
      | .ok s10 => runFromBackfill s10

/-- The store state after one `initDB` run. -/
def initDB (s : Store) : Store := (initDBRun s).1

/-- Whether the run caught (and logged) an error. -/
def migrationErrored (s : Store) : Bool := (initDBRun s).2

/-- Process start: `initDB()` then, unconditionally, `app.listen` (lines
627 and 1024); the Bool is whether the HTTP server starts serving. -/
def startup (s : Store) : Store × Bool := (initDB s, true)

/-! ## Authentication gate (`requireUserId`, lines 365-375) -/

/-- Decimal digit value of a character. -/
def digitVal (c : Char) : Nat := c.toNat - '0'.toNat

/-- Value of a list of decimal digit characters (callers guarantee the
characters are digits). -/
def digitsVal (cs : List Char) : Nat :=
  cs.foldl (fun acc c => acc * 10 + digitVal c) 0

/-- Value of a hexadecimal digit character (also covers decimal, octal
and binary digits; callers guarantee the character is a digit of the
radix in use). -/
def hexDigitVal (c : Char) : Nat :=
  if c.isDigit then digitVal c
  else if 'a' ≤ c ∧ c ≤ 'f' then c.toNat - 'a'.toNat + 10
  else if 'A' ≤ c ∧ c ≤ 'F' then c.toNat - 'A'.toNat + 10
  else 0

/-- Hexadecimal digit predicate (HexDigit of the numeric grammar). -/
def isHexDigit (c : Char) : Bool :=
  c.isDigit ∨ ('a' ≤ c ∧ c ≤ 'f') ∨ ('A' ≤ c ∧ c ≤ 'F')

/-- Octal digit predicate (OctalDigit of the numeric grammar). -/
def isOctDigit (c : Char) : Bool := '0' ≤ c ∧ c ≤ '7'

/-- Binary digit predicate (BinaryDigit of the numeric grammar). -/
def isBinDigit (c : Char) : Bool := c = '0' ∨ c = '1'

/-- Value of a digit string in radix `b`. -/
def radixVal (b : Nat) (cs : List Char) : Nat :=
  cs.foldl (fun acc c => acc * b + hexDigitVal c) 0

/-- The characters the `StringToNumber` coercion strips at both ends of
the input: ECMAScript WhiteSpace (TAB, VT, FF, SP, NBSP, ZWNBSP and the
Unicode space separators) and LineTerminator (LF, CR, LS, PS). -/
def jsWhitespaceList : List Char :=
  ['\t', '\n', '\x0b', '\x0c', '\r', ' ', '\u00A0', '\u1680',
   '\u2000', '\u2001', '\u2002', '\u2003', '\u2004', '\u2005',
   '\u2006', '\u2007', '\u2008', '\u2009', '\u200A', '\u2028',
   '\u2029', '\u202F', '\u205F', '\u3000', '\uFEFF']

/-- Whitespace predicate of `StringToNumber`. -/
def isJsWhitespace (c : Char) : Bool := jsWhitespaceList.contains c

/-- Strip leading and trailing `StringToNumber` whitespace. -/
def jsTrim (cs : List Char) : List Char :=
  ((cs.dropWhile isJsWhitespace).reverse.dropWhile isJsWhitespace).reverse

/-- The result of the JavaScript `Number(string)` coercion before it is
rounded to an IEEE-754 double: NaN, a signed infinity (from the literal
`Infinity`), or the exact mathematical value of a numeric literal. -/
inductive JsNum : Type where
  | nan : JsNum
  | inf : Bool → JsNum
  | val : ℚ → JsNum
deriving DecidableEq, Repr

/-- ExponentPart of StrUnsignedDecimalLiteral: the remaining characters
must be empty, or `e`/`E` followed by an optionally signed nonempty digit
string; the mantissa `m` is scaled by the signed power of ten. -/
def parseExp (cs : List Char) (m : ℚ) : Option ℚ :=
  match cs with
  | [] => some m
  | e :: r1 =>
    if e = 'e' ∨ e = 'E' then
      match r1 with
      | '-' :: r2 =>
        if r2 ≠ [] ∧ r2.all Char.isDigit then
          some (m / (10 : ℚ) ^ digitsVal r2)
        else none
      | '+' :: r2 =>
        if r2 ≠ [] ∧ r2.all Char.isDigit then
          some (m * (10 : ℚ) ^ digitsVal r2)
        else none
      | _ =>
        if r1 ≠ [] ∧ r1.all Char.isDigit then
          some (m * (10 : ℚ) ^ digitsVal r1)
        else none
    else none

/-- StrUnsignedDecimalLiteral without the `Infinity` production: integer
digits, an optional fraction introduced by `.` (at least one digit must
appear on one side of the dot), and an optional exponent part; every
other shape is NaN (`none`). -/
def parseDec (cs : List Char) : Option ℚ :=
  let intPart := cs.takeWhile Char.isDigit
  let r1 := cs.drop intPart.length
  match r1 with
  | '.' :: r2 =>
    let frac := r2.takeWhile Char.isDigit
    let r3 := r2.drop frac.length
    if intPart.isEmpty ∧ frac.isEmpty then none
    else
      parseExp r3 ((digitsVal intPart : ℚ) +
        (digitsVal frac : ℚ) / (10 : ℚ) ^ frac.length)
  | _ =>
    if intPart.isEmpty then none
    else parseExp r1 (digitsVal intPart : ℚ)

/-- The character list of the `Infinity` literal. -/
def infinityChars : List Char := ['I', 'n', 'f', 'i', 'n', 'i', 't', 'y']

/-- StrDecimalLiteral: an optional sign followed by `Infinity` or an
unsigned decimal literal. -/
def strDecimal (t : List Char) : JsNum :=
  match t with
  | '-' :: r =>
    if r = infinityChars then .inf true
    else
      match parseDec r with
      | some q => .val (-q)
      | none => .nan
  | '+' :: r =>
    if r = infinityChars then .inf false
    else
      match parseDec r with
      | some q => .val q
      | none => .nan
  | _ =>
    if t = infinityChars then .inf false
    else
      match parseDec t with
      | some q => .val q
      | none => .nan

/-- The ECMAScript `StringToNumber` coercion applied by
`Number(raw)` at line 367: trim whitespace at both ends; an empty
remainder is +0; `0x`/`0X`, `0o`/`0O`, `0b`/`0B` prefixes introduce
unsigned hex/octal/binary integer literals (a sign in front of these is
NaN, which the decimal arm below yields); otherwise an optionally signed
decimal literal or `Infinity`; anything else is NaN. -/
def strToNumber (str : String) : JsNum :=
  match jsTrim str.toList with
  | [] => .val 0
  | '0' :: 'x' :: ds =>
    if ds ≠ [] ∧ ds.all isHexDigit then .val (radixVal 16 ds : ℚ) else .nan
  | '0' :: 'X' :: ds =>
    if ds ≠ [] ∧ ds.all isHexDigit then .val (radixVal 16 ds : ℚ) else .nan
  | '0' :: 'o' :: ds =>
    if ds ≠ [] ∧ ds.all isOctDigit then .val (radixVal 8 ds : ℚ) else .nan
  | '0' :: 'O' :: ds =>
    if ds ≠ [] ∧ ds.all isOctDigit then .val (radixVal 8 ds : ℚ) else .nan
  | '0' :: 'b' :: ds =>
    if ds ≠ [] ∧ ds.all isBinDigit then .val (radixVal 2 ds : ℚ) else .nan
  | '0' :: 'B' :: ds =>
    if ds ≠ [] ∧ ds.all isBinDigit then .val (radixVal 2 ds : ℚ) else .nan
  | t => strDecimal t

/-- The smallest positive mathematical value whose round-to-nearest
IEEE-754 double is an infinity: the midpoint 2^1024 - 2^970 between the
largest finite double (2^53 - 1) * 2^971 and 2^1024 rounds up under
ties-to-even, so `Number.isFinite` fails exactly at and above it. -/
def dblOverflowBound : ℚ := (2 : ℚ) ^ 1024 - (2 : ℚ) ^ 970

/-- The largest positive mathematical value whose round-to-nearest
IEEE-754 double is +0: the midpoint 2^-1075 between 0 and the smallest
subnormal 2^-1074 rounds down under ties-to-even, so a positive literal
at or below it yields a double that fails the `userId <= 0` test. -/
def dblZeroBound : ℚ := 1 / (2 : ℚ) ^ 1075

/-- `Number.isFinite(userId)` at line 369: false for NaN and the two
infinities, and for a literal's exact value false exactly when rounding
its magnitude to a double overflows to an infinity. -/
def jsIsFinite : JsNum → Bool
  | .val q => decide (|q| < dblOverflowBound)
  | .inf _ => false
  | .nan => false

/-- The JavaScript comparison `userId <= 0` at line 369, on the double
rounded from the coercion result: false for NaN, true only for the
negative infinity, and for a literal's exact value q true exactly when
the rounded double is at most +0, i.e. when q ≤ 2^-1075. -/
def jsLeZero : JsNum → Bool
  | .val q => decide (q ≤ dblZeroBound)
  | .inf neg => neg
  | .nan => false

/-- The body of the gate for a present header value, mirroring
`!raw || !Number.isFinite(userId) || userId <= 0` at line 369: reject the
empty string (falsy `raw`), a coercion result that is not a finite
double, and a result whose double is at most zero; otherwise attach the
identifier (its exact mathematical value; the non-`val` match arms are
unreachable because `jsIsFinite` already rejected them). -/
def checkUserId (raw : String) : Option ℚ :=
  if raw = "" ∨ jsIsFinite (strToNumber raw) = false ∨
      jsLeZero (strToNumber raw) = true
  then none
  else
    match strToNumber raw with
    | .val q => some q
    | .inf _ => none
    | .nan => none

/-- Lines 365-375: read the x-user-id header; reject (401) when the header
is missing or its value fails `checkUserId`. -/
def requireUserId (header : Option String) : Option ℚ :=
  match header with
  | none => none
  | some raw => checkUserId raw

/-- The middleware pattern `app.verb(path, requireUserId, handler)`: the
handler runs only when the gate attached an identifier. -/
def withUser {α : Type} (handler : ℚ → α) (header : Option String) : Option α :=
  (requireUserId header).map handler

/-! ## Tenant-scoped record store -/

/-- Row ordering of `GET /api/transactions` (line 682):
ORDER BY date DESC, id DESC. -/
def txOrd (a b : TxRow) : Prop :=
  b.date < a.date ∨ (b.date = a.date ∧ b.id ≤ a.id)

instance : DecidableRel txOrd := fun a b => by unfold txOrd; infer_instance

instance : IsTotal TxRow txOrd := ⟨by intro a b; unfold txOrd; omega⟩

instance : IsTrans TxRow txOrd := ⟨by intro a b c; unfold txOrd; omega⟩

/-- ORDER BY id ASC for goals. -/
def goalOrd (a b : GoalRow) : Prop := a.id ≤ b.id

instance : DecidableRel goalOrd := fun a b => by unfold goalOrd; infer_instance

instance : IsTotal GoalRow goalOrd := ⟨by intro a b; unfold goalOrd; omega⟩

instance : IsTrans GoalRow goalOrd := ⟨by intro a b c; unfold goalOrd; omega⟩

/-- ORDER BY id ASC for cards. -/
def cardOrd (a b : CardRow) : Prop := a.id ≤ b.id

instance : DecidableRel cardOrd := fun a b => by unfold cardOrd; infer_instance

instance : IsTotal CardRow cardOrd := ⟨by intro a b; unfold cardOrd; omega⟩

instance : IsTrans CardRow cardOrd := ⟨by intro a b c; unfold cardOrd; omega⟩

/-- ORDER BY id ASC for investments. -/
def invOrd (a b : InvRow) : Prop := a.id ≤ b.id

instance : DecidableRel invOrd := fun a b => by unfold invOrd; infer_instance

instance : IsTotal InvRow invOrd := ⟨by intro a b; unfold invOrd; omega⟩

instance : IsTrans InvRow invOrd := ⟨by intro a b c; unfold invOrd; omega⟩

/-- ORDER BY id ASC for budgets. -/
def budgetOrd (a b : BudgetRow) : Prop := a.id ≤ b.id

instance : DecidableRel budgetOrd := fun a b => by unfold budgetOrd; infer_instance

instance : IsTotal BudgetRow budgetOrd := ⟨by intro a b; unfold budgetOrd; omega⟩

instance : IsTrans BudgetRow budgetOrd := ⟨by intro a b c; unfold budgetOrd; omega⟩

/-- `SELECT * FROM transactions WHERE user_id=$1 ORDER BY date DESC, id DESC`
(lines 681-684); the route then maps a field projection over this list. -/
def listTransactions (rows : List TxRow) (uid : Nat) : List TxRow :=
  (rows.filter (fun r => decide (r.user_id = some uid))).insertionSort txOrd

/-- `SELECT * FROM goals WHERE user_id=$1 ORDER BY id ASC` (line 764). -/
def listGoals (rows : List GoalRow) (uid : Nat) : List GoalRow :=
  (rows.filter (fun r => decide (r.user_id = some uid))).insertionSort goalOrd

/-- `SELECT * FROM cards WHERE user_id=$1 ORDER BY id ASC` (line 827). -/
def listCards (rows : List CardRow) (uid : Nat) : List CardRow :=
  (rows.filter (fun r => decide (r.user_id = some uid))).insertionSort cardOrd

/-- `SELECT * FROM investments WHERE user_id=$1 ORDER BY id ASC` (line 891). -/
def listInvestments (rows : List InvRow) (uid : Nat) : List InvRow :=
  (rows.filter (fun r => decide (r.user_id = some uid))).insertionSort invOrd

/-- `SELECT * FROM budgets WHERE user_id=$1 ORDER BY id ASC` (line 954). -/
def listBudgets (rows : List BudgetRow) (uid : Nat) : List BudgetRow :=
  (rows.filter (fun r => decide (r.user_id = some uid))).insertionSort budgetOrd

/-- The updatable fields of `PUT /api/transactions/:id` (lines 725-744):
everything except `id` and `user_id`. -/
structure TxFields where
  description : String
  amount : Int
  type' : String
  category : String
  subcategory : String
  date : Nat
  payment_method : String
  is_recurring : Bool
  card_id : Option Nat
deriving DecidableEq, Repr

/-- The SET list of the transactions UPDATE: id and user_id untouched. -/
def applyTxFields (f : TxFields) (r : TxRow) : TxRow :=
  {r with
    description := f.description, amount := f.amount, type' := f.type',
    category := f.category, subcategory := f.subcategory, date := f.date,
    payment_method := f.payment_method, is_recurring := f.is_recurring,
    card_id := f.card_id}

/-- `UPDATE transactions SET ... WHERE id=$10 AND user_id=$11` (lines
730-736); returns the new row list and the rowCount the route compares
with 0 to decide 404. -/
def updateTransaction (rows : List TxRow) (ownerId rid : Nat) (f : TxFields) :
    List TxRow × Nat :=
  (rows.map (fun r =>
      if r.id = rid ∧ r.user_id = some ownerId then applyTxFields f r else r),
    (rows.filter (fun r => decide (r.id = rid ∧ r.user_id = some ownerId))).length)

/-- `DELETE FROM transactions WHERE id=$1 AND user_id=$2` (line 748);
returns the remaining rows and the rowCount. -/
def deleteTransaction (rows : List TxRow) (ownerId rid : Nat) :
    List TxRow × Nat :=
  (rows.filter (fun r => decide (¬ (r.id = rid ∧ r.user_id = some ownerId))),
    (rows.filter (fun r => decide (r.id = rid ∧ r.user_id = some ownerId))).length)

/-- Outcome of `POST /api/budgets` and `POST /api/auth/register`. -/
inductive PostResult where
  | badRequest
  | conflict
  | ok (id : Nat)
deriving DecidableEq, Repr

/-- Does a budget row match the natural key (ownerId, category)? -/
def budgetKeyMatch (ownerId : Nat) (category : String) (r : BudgetRow) : Bool :=
  decide (r.user_id = some ownerId ∧ r.category = category)

/-- The row freshly inserted by the upsert's INSERT branch: next SERIAL
id, stamped with the calling owner. -/
def insertedBudget (t : Table BudgetRow) (ownerId : Nat) (category : String)
    (limit : Int) : BudgetRow :=
  {id := t.seq, user_id := some ownerId, category := category, limit_amount := limit}

/-- `POST /api/budgets` (lines 963-984): 400 when category is falsy; else
SELECT by the natural key; if a row is found, UPDATE its limit in place
(`WHERE id=$2 AND user_id=$3`) and return the existing id; otherwise
INSERT and return the new SERIAL id. -/
def upsertBudget (t : Table BudgetRow) (ownerId : Nat) (category : String)
    (limit : Int) : Table BudgetRow × PostResult :=
  if category = "" then (t, .badRequest)
  else
    match (t.rows.filter (budgetKeyMatch ownerId category)).head? with
    | some r0 =>
      ({t with rows := t.rows.map (fun r =>
          if r.id = r0.id ∧ r.user_id = some ownerId then
            {r with limit_amount := limit}
          else r)},
        .ok r0.id)
    | none =>
      ({t with
          rows := t.rows ++ [insertedBudget t ownerId category limit],
          seq := t.seq + 1},
        .ok t.seq)

/-- `POST /api/auth/register` (lines 636-655): 400 when name or pin is
falsy; 409 Conflict when some user row already has the pin; otherwise
INSERT the new user and return its SERIAL id. -/
def register (t : UsersTable) (name pin : String) : UsersTable × PostResult :=
  if name = "" ∨ pin = "" then (t, .badRequest)
  else if t.rows.any (fun u => decide (u.pin = pin)) then (t, .conflict)
  else
    ({rows := t.rows ++ [{id := t.seq, name := name, pin := pin}],
      seq := t.seq + 1},
      .ok t.seq)

/-! ## Sample data used by witnesses and counterexamples -/

/-- A store with nothing in it: no tables, no constraints, no indexes. -/
def emptyStore : Store :=
  {users := none, transactions := none, goals := none, cards := none,
   investments := none, budgets := none, pinUnique := false,
   budgetsCategoryKey := false, budgetsUserCategoryUnique := false,
   txFk := false, goalsFk := false, cardsFk := false, invFk := false,
   budgetsFk := false, idxTx := false, idxGoals := false, idxCards := false,
   idxInv := false, idxBudgets := false}

/-- A sample owner. -/
def ana : UserRow := {id := 1, name := "Ana", pin := "1234"}

/-- A sample unowned legacy transaction. -/
def legacyTx : TxRow :=
  {id := 1, user_id := none, description := "mercado", amount := 4250,
   type' := "expense", category := "food", subcategory := "grocery",
   date := 10, payment_method := "pix", is_recurring := false, card_id := none}

/-- A sample transaction owned by user 7. -/
def txOf7 : TxRow :=
  {legacyTx with id := 2, user_id := some 7, date := 5}

/-- A sample transaction owned by user 8, sharing the id space. -/
def txOf8 : TxRow :=
  {legacyTx with id := 3, user_id := some 8, date := 9}

/-- A sample field update payload. -/
def sampleFields : TxFields :=
  {description := "alterado", amount := 999, type' := "expense",
   category := "c", subcategory := "s", date := 3, payment_method := "card",
   is_recurring := false, card_id := none}

/-- An unowned legacy budget row for category food. -/
def legacyBudget : BudgetRow :=
  {id := 1, user_id := none, category := "food", limit_amount := 10000}

/-- A second unowned budget row for the same category. -/
def legacyBudget2 : BudgetRow :=
  {id := 2, user_id := none, category := "food", limit_amount := 20000}

/-- An empty budgets table in post-migration shape. -/
def emptyBudgetsTable : Table BudgetRow :=
  {rows := [], hasUserId := true, userIdNotNull := true, seq := 1}

/-- An empty users table. -/
def emptyUsersTable : UsersTable := {rows := [], seq := 1}

/-! ## Theorems -/

/-- If each element is a fixed point of `f`, mapping `f` changes nothing. -/
theorem map_eq_self {ρ : Type} {rs : List ρ} {g : ρ → ρ}
    (hfix : ∀ r ∈ rs, g r = r) : rs.map g = rs :=
  (List.map_congr_left hfix).trans (List.map_id rs)

/-- `Option.map f` is the identity when `f` fixes the content. -/
theorem opt_map_eq_self {α : Type} {o : Option α} {f : α → α}
    (h : ∀ a, o = some a → f a = a) : o.map f = o := by
  cases o with
  | none => rfl
  | some a => simp [h a rfl]

/-! ### Row-preservation machinery for the migration claims -/

/-- The six row lists of `s'` coincide with those of `s`. -/
def SameRows (s s' : Store) : Prop :=
  usersRowsOf s' = usersRowsOf s ∧ txRowsOf s' = txRowsOf s ∧
  goalsRowsOf s' = goalsRowsOf s ∧ cardsRowsOf s' = cardsRowsOf s ∧
  invRowsOf s' = invRowsOf s ∧ budgetsRowsOf s' = budgetsRowsOf s

theorem sameRows_refl (s : Store) : SameRows s s :=
  ⟨rfl, rfl, rfl, rfl, rfl, rfl⟩

theorem sameRows_trans {s t u : Store} (h1 : SameRows s t)
    (h2 : SameRows t u) : SameRows s u := by
  obtain ⟨hsu, hst, hsg, hsc, hsv, hsb⟩ := h1
  obtain ⟨htu, htt, htg, htc, htv, htb⟩ := h2
  refine ⟨htu.trans hsu, htt.trans hst, htg.trans hsg, ?_, ?_, ?_⟩
  · exact htc.trans hsc
  · exact htv.trans hsv
  · exact htb.trans hsb

theorem sameRows_ensureUsersTable (s : Store) :
    SameRows s (ensureUsersTable s) := by
  obtain ⟨u, tx, g, c, i, b, p1, p2, p3, f1, f2, f3, f4, f5, j1, j2, j3, j4, j5⟩ := s
  cases u <;> exact ⟨rfl, rfl, rfl, rfl, rfl, rfl⟩

theorem sameRows_ensureResources (s : Store) :
    SameRows s (ensureResources s) := by
  obtain ⟨u, tx, g, c, i, b, p1, p2, p3, f1, f2, f3, f4, f5, j1, j2, j3, j4, j5⟩ := s
  cases tx <;> cases g <;> cases c <;> cases i <;> cases b <;>
    exact ⟨rfl, rfl, rfl, rfl, rfl, rfl⟩

/-- The null-scan-guarded SET NOT NULL never touches the rows. -/
theorem tightenT_rows {ρ : Type} [OwnedRow ρ] (x : Table ρ) :
    (tightenT x).rows = x.rows := by
  unfold tightenT
  split <;> rfl

theorem sameRows_tightenNotNull (s : Store) :
    SameRows s (tightenNotNull s) := by
  obtain ⟨u, tx, g, c, i, b, p1, p2, p3, f1, f2, f3, f4, f5, j1, j2, j3, j4, j5⟩ := s
  refine ⟨rfl, ?_, ?_, ?_, ?_, ?_⟩
  · cases tx with
    | none => rfl
    | some x => exact tightenT_rows x
  · cases g with
    | none => rfl
    | some x => exact tightenT_rows x
  · cases c with
    | none => rfl
    | some x => exact tightenT_rows x
  · cases i with
    | none => rfl
    | some x => exact tightenT_rows x
  · cases b with
    | none => rfl
    | some x => exact tightenT_rows x

/-- The canonical outcome of the pin-constraint step. -/
theorem addPinUnique_ok {s s' : Store} (h : addPinUnique s = .ok s') :
    s' = {s with pinUnique := true} := by
  unfold addPinUnique at h
  split at h
  · cases h
  · exact (Except.ok.inj h).symm

/-- The canonical outcome of the budgets-constraint replacement step. -/
theorem replaceBudgetsUnique_ok {s s' : Store}
    (h : replaceBudgetsUnique s = .ok s') :
    s' = {s with
      budgetsCategoryKey := false,
      budgetsUserCategoryUnique := true} := by
  unfold replaceBudgetsUnique at h
  split at h
  · cases h
  · exact (Except.ok.inj h).symm

theorem addTxFk_ok {s s' : Store} (h : addTxFk s = .ok s') :
    s' = {s with txFk := true} := by
  unfold addTxFk at h
  split at h
  · cases h
  · exact (Except.ok.inj h).symm

theorem addGoalsFk_ok {s s' : Store} (h : addGoalsFk s = .ok s') :
    s' = {s with goalsFk := true} := by
  unfold addGoalsFk at h
  split at h
  · cases h
  · exact (Except.ok.inj h).symm

theorem addCardsFk_ok {s s' : Store} (h : addCardsFk s = .ok s') :
    s' = {s with cardsFk := true} := by
  unfold addCardsFk at h
  split at h
  · cases h
  · exact (Except.ok.inj h).symm

theorem addInvFk_ok {s s' : Store} (h : addInvFk s = .ok s') :
    s' = {s with invFk := true} := by
  unfold addInvFk at h
  split at h
  · cases h
  · exact (Except.ok.inj h).symm

theorem addBudgetsFk_ok {s s' : Store} (h : addBudgetsFk s = .ok s') :
    s' = {s with budgetsFk := true} := by
  unfold addBudgetsFk at h
  split at h
  · cases h
  · exact (Except.ok.inj h).symm

/-- The canonical outcome of the foreign-key block. -/
theorem addForeignKeys_ok {s s' : Store} (h : addForeignKeys s = .ok s') :
    s' = {s with
      txFk := true,
      goalsFk := true,
      cardsFk := true,
      invFk := true,
      budgetsFk := true} := by
  unfold addForeignKeys at h
  split at h
  · cases h
  · rename_i s1 heq1
    split at h
    · cases h
    · rename_i s2 heq2
      split at h
      · cases h
      · rename_i s3 heq3
        split at h
        · cases h
        · rename_i s4 heq4
          rw [addBudgetsFk_ok h, addInvFk_ok heq4, addCardsFk_ok heq3,
            addGoalsFk_ok heq2, addTxFk_ok heq1]

/-- The possible outcomes of a successful backfill statement. -/
theorem backfillOwner_ok {s s' : Store} (h : backfillOwner s = .ok s') :
    s' = s ∨ ∃ uid,
      s' = setResourceRows s
        ((txRowsOf s).map (fillUser uid))
        ((goalsRowsOf s).map (fillUser uid))
        ((cardsRowsOf s).map (fillUser uid))
        ((invRowsOf s).map (fillUser uid))
        ((budgetsRowsOf s).map (fillUser uid)) := by
  unfold backfillOwner at h
  by_cases hlen : (usersRowsOf s).length = 1
  · rw [if_pos hlen] at h
    split at h
    · exact Or.inl (Except.ok.inj h).symm
    · split at h
      · cases h
      · exact Or.inr ⟨_, (Except.ok.inj h).symm⟩
  · rw [if_neg hlen] at h
    exact Or.inl (Except.ok.inj h).symm

theorem txRowsOf_setResourceRows (s : Store) (f : TxRow → TxRow)
    (G : List GoalRow) (C : List CardRow) (I : List InvRow)
    (B : List BudgetRow) :
    txRowsOf (setResourceRows s ((txRowsOf s).map f) G C I B) =
      (txRowsOf s).map f := by
  obtain ⟨u, tx, g, c, i, b, p1, p2, p3, f1, f2, f3, f4, f5, j1, j2, j3, j4, j5⟩ := s
  cases tx <;> rfl

theorem goalsRowsOf_setResourceRows (s : Store) (f : GoalRow → GoalRow)
    (T : List TxRow) (C : List CardRow) (I : List InvRow)
    (B : List BudgetRow) :
    goalsRowsOf (setResourceRows s T ((goalsRowsOf s).map f) C I B) =
      (goalsRowsOf s).map f := by
  obtain ⟨u, tx, g, c, i, b, p1, p2, p3, f1, f2, f3, f4, f5, j1, j2, j3, j4, j5⟩ := s
  cases g <;> rfl

theorem cardsRowsOf_setResourceRows (s : Store) (f : CardRow → CardRow)
    (T : List TxRow) (G : List GoalRow) (I : List InvRow)
    (B : List BudgetRow) :
    cardsRowsOf (setResourceRows s T G ((cardsRowsOf s).map f) I B) =
      (cardsRowsOf s).map f := by
  obtain ⟨u, tx, g, c, i, b, p1, p2, p3, f1, f2, f3, f4, f5, j1, j2, j3, j4, j5⟩ := s
  cases c <;> rfl

theorem invRowsOf_setResourceRows (s : Store) (f : InvRow → InvRow)
    (T : List TxRow) (G : List GoalRow) (C : List CardRow)
    (B : List BudgetRow) :
    invRowsOf (setResourceRows s T G C ((invRowsOf s).map f) B) =
      (invRowsOf s).map f := by
  obtain ⟨u, tx, g, c, i, b, p1, p2, p3, f1, f2, f3, f4, f5, j1, j2, j3, j4, j5⟩ := s
  cases i <;> rfl

theorem budgetsRowsOf_setResourceRows (s : Store) (f : BudgetRow → BudgetRow)
    (T : List TxRow) (G : List GoalRow) (C : List CardRow)
    (I : List InvRow) :
    budgetsRowsOf (setResourceRows s T G C I ((budgetsRowsOf s).map f)) =
      (budgetsRowsOf s).map f := by
  obtain ⟨u, tx, g, c, i, b, p1, p2, p3, f1, f2, f3, f4, f5, j1, j2, j3, j4, j5⟩ := s
  cases b <;> rfl

/-- Users rows never change through `setResourceRows`. -/
theorem usersRowsOf_setResourceRows (s : Store) (T : List TxRow)
    (G : List GoalRow) (C : List CardRow) (I : List InvRow)
    (B : List BudgetRow) :
    usersRowsOf (setResourceRows s T G C I B) = usersRowsOf s := rfl

/-- Where the six row lists of a run come from: users unchanged, resource
rows either unchanged or (when the backfill ran with owner uid) mapped by
`fillUser uid`. -/
theorem initDB_rows (s : Store) :
    usersRowsOf (initDB s) = usersRowsOf s ∧
    ((txRowsOf (initDB s) = txRowsOf s ∧
      goalsRowsOf (initDB s) = goalsRowsOf s ∧
      cardsRowsOf (initDB s) = cardsRowsOf s ∧
      invRowsOf (initDB s) = invRowsOf s ∧
      budgetsRowsOf (initDB s) = budgetsRowsOf s) ∨
     (∃ uid, txRowsOf (initDB s) = (txRowsOf s).map (fillUser uid) ∧
      goalsRowsOf (initDB s) = (goalsRowsOf s).map (fillUser uid) ∧
      cardsRowsOf (initDB s) = (cardsRowsOf s).map (fillUser uid) ∧
      invRowsOf (initDB s) = (invRowsOf s).map (fillUser uid) ∧
      budgetsRowsOf (initDB s) = (budgetsRowsOf s).map (fillUser uid))) := by
  unfold initDB initDBRun
  cases hpin : addPinUnique (ensureUsersTable s) with
  | error e =>
    simp only [hpin]
    obtain ⟨a1, a2, a3, a4, a5, a6⟩ := sameRows_ensureUsersTable s
    exact ⟨a1, Or.inl ⟨a2, a3, a4, a5, a6⟩⟩
  | ok s2 =>
    simp only [hpin]
    have hsame2 : SameRows s s2 := by
      rw [addPinUnique_ok hpin]
      exact sameRows_trans (sameRows_ensureUsersTable s)
        ⟨rfl, rfl, rfl, rfl, rfl, rfl⟩
    have hsame7 : SameRows s (ensureResources s2) :=
      sameRows_trans hsame2 (sameRows_ensureResources s2)
    cases hrep : replaceBudgetsUnique (ensureResources s2) with
    | error e =>
      simp only [hrep]
      obtain ⟨a1, a2, a3, a4, a5, a6⟩ := hsame7
      exact ⟨a1, Or.inl ⟨a2, a3, a4, a5, a6⟩⟩
    | ok s8 =>
      simp only [hrep]
      have hsame9 : SameRows s (ensureBudgetsIndex s8) := by
        refine sameRows_trans hsame7 ?_
        rw [replaceBudgetsUnique_ok hrep]
        exact ⟨rfl, rfl, rfl, rfl, rfl, rfl⟩
      cases hfk : addForeignKeys (ensureBudgetsIndex s8) with
      | error e =>
        simp only [hfk]
        obtain ⟨a1, a2, a3, a4, a5, a6⟩ := hsame9
        exact ⟨a1, Or.inl ⟨a2, a3, a4, a5, a6⟩⟩
      | ok s10 =>
        simp only [hfk]
        have hsame10 : SameRows s s10 := by
          refine sameRows_trans hsame9 ?_
          rw [addForeignKeys_ok hfk]
          exact ⟨rfl, rfl, rfl, rfl, rfl, rfl⟩
        unfold runFromBackfill
        cases hbf : backfillOwner s10 with
        | error e =>
          simp only [hbf]
          obtain ⟨a1, a2, a3, a4, a5, a6⟩ := hsame10
          exact ⟨a1, Or.inl ⟨a2, a3, a4, a5, a6⟩⟩
        | ok s11 =>
          simp only [hbf]
          obtain ⟨a1, a2, a3, a4, a5, a6⟩ := hsame10
          obtain ⟨b1, b2, b3, b4, b5, b6⟩ := sameRows_tightenNotNull s11
          rcases backfillOwner_ok hbf with hid | ⟨uid, hset⟩
          · subst hid
            exact ⟨b1.trans a1, Or.inl ⟨b2.trans a2, b3.trans a3,
              b4.trans a4, b5.trans a5, b6.trans a6⟩⟩
          · subst hset
            refine ⟨b1.trans ((usersRowsOf_setResourceRows s10 _ _ _ _ _).trans a1),
              Or.inr ⟨uid, ?_, ?_, ?_, ?_, ?_⟩⟩
            · rw [b2, txRowsOf_setResourceRows, a2]
            · rw [b3, goalsRowsOf_setResourceRows, a3]
            · rw [b4, cardsRowsOf_setResourceRows, a4]
            · rw [b5, invRowsOf_setResourceRows, a5]
            · rw [b6, budgetsRowsOf_setResourceRows, a6]

/-- C3's per-row evolution: a pre-existing row is kept verbatim, except
that a null owner reference may have been populated. -/
def rowKept {ρ : Type} [OwnedRow ρ] (r r' : ρ) : Prop :=
  r' = r ∨ (OwnedRow.userId r = none ∧
    ∃ uid, r' = OwnedRow.setUserId r (some uid))

theorem forall₂_rowKept_self {ρ : Type} [OwnedRow ρ] (l : List ρ) :
    List.Forall₂ rowKept l l := by
  induction l with
  | nil => exact List.Forall₂.nil
  | cons a t ih => exact List.Forall₂.cons (Or.inl rfl) ih

theorem forall₂_rowKept_fill {ρ : Type} [OwnedRow ρ] (uid : Nat)
    (l : List ρ) : List.Forall₂ rowKept l (l.map (fillUser uid)) := by
  induction l with
  | nil => exact List.Forall₂.nil
  | cons a t ih =>
    refine List.Forall₂.cons ?_ ih
    unfold fillUser
    cases ha : OwnedRow.userId a with
    | none => exact Or.inr ⟨ha, uid, rfl⟩
    | some v => exact Or.inl rfl

/-- `CREATE TABLE IF NOT EXISTS` on an existing table is the identity. -/
theorem ensureTxTable_of_some {s : Store} {t : Table TxRow}
    (h : s.transactions = some t) : ensureTxTable s = s := by
  obtain ⟨u, tx, g, c, i, b, p1, p2, p3, f1, f2, f3, f4, f5, j1, j2, j3, j4, j5⟩ := s
  subst h
  rfl

theorem ensureGoalsTable_of_some {s : Store} {t : Table GoalRow}
    (h : s.goals = some t) : ensureGoalsTable s = s := by
  obtain ⟨u, tx, g, c, i, b, p1, p2, p3, f1, f2, f3, f4, f5, j1, j2, j3, j4, j5⟩ := s
  subst h
  rfl

theorem ensureCardsTable_of_some {s : Store} {t : Table CardRow}
    (h : s.cards = some t) : ensureCardsTable s = s := by
  obtain ⟨u, tx, g, c, i, b, p1, p2, p3, f1, f2, f3, f4, f5, j1, j2, j3, j4, j5⟩ := s
  subst h
  rfl

theorem ensureInvTable_of_some {s : Store} {t : Table InvRow}
    (h : s.investments = some t) : ensureInvTable s = s := by
  obtain ⟨u, tx, g, c, i, b, p1, p2, p3, f1, f2, f3, f4, f5, j1, j2, j3, j4, j5⟩ := s
  subst h
  rfl

theorem ensureBudgetsTable_of_some {s : Store} {t : Table BudgetRow}
    (h : s.budgets = some t) : ensureBudgetsTable s = s := by
  obtain ⟨u, tx, g, c, i, b, p1, p2, p3, f1, f2, f3, f4, f5, j1, j2, j3, j4, j5⟩ := s
  subst h
  rfl

/-- C3: a run of initDB never deletes or rewrites existing rows — the six
row lists evolve pointwise (same length, same order), each pre-existing
row surviving with all fields unchanged except that a null user_id may
have been populated by the backfill; user rows are untouched; and
EnsureTable on an already-existing table is a complete no-op. -/
theorem initDB_no_data_loss (s : Store) :
    usersRowsOf (initDB s) = usersRowsOf s ∧
    List.Forall₂ rowKept (txRowsOf s) (txRowsOf (initDB s)) ∧
    List.Forall₂ rowKept (goalsRowsOf s) (goalsRowsOf (initDB s)) ∧
    List.Forall₂ rowKept (cardsRowsOf s) (cardsRowsOf (initDB s)) ∧
    List.Forall₂ rowKept (invRowsOf s) (invRowsOf (initDB s)) ∧
    List.Forall₂ rowKept (budgetsRowsOf s) (budgetsRowsOf (initDB s)) ∧
    (∀ (s' : Store) (t : Table TxRow), s'.transactions = some t →
      ensureTxTable s' = s') ∧
    (∀ (s' : Store) (t : Table GoalRow), s'.goals = some t →
      ensureGoalsTable s' = s') ∧
    (∀ (s' : Store) (t : Table CardRow), s'.cards = some t →
      ensureCardsTable s' = s') ∧
    (∀ (s' : Store) (t : Table InvRow), s'.investments = some t →
      ensureInvTable s' = s') ∧
    (∀ (s' : Store) (t : Table BudgetRow), s'.budgets = some t →
      ensureBudgetsTable s' = s') := by
  obtain ⟨h1, h2⟩ := initDB_rows s
  refine ⟨h1, ?_, ?_, ?_, ?_, ?_,
    fun _ _ => ensureTxTable_of_some, fun _ _ => ensureGoalsTable_of_some,
    fun _ _ => ensureCardsTable_of_some, fun _ _ => ensureInvTable_of_some,
    fun _ _ => ensureBudgetsTable_of_some⟩ <;>
    rcases h2 with ⟨e1, e2, e3, e4, e5⟩ | ⟨uid, e1, e2, e3, e4, e5⟩
  · rw [e1]; exact forall₂_rowKept_self _
  · rw [e1]; exact forall₂_rowKept_fill uid _
  · rw [e2]; exact forall₂_rowKept_self _
  · rw [e2]; exact forall₂_rowKept_fill uid _
  · rw [e3]; exact forall₂_rowKept_self _
  · rw [e3]; exact forall₂_rowKept_fill uid _
  · rw [e4]; exact forall₂_rowKept_self _
  · rw [e4]; exact forall₂_rowKept_fill uid _
  · rw [e5]; exact forall₂_rowKept_self _
  · rw [e5]; exact forall₂_rowKept_fill uid _

/-- A store whose transactions table exists. -/
def sampleTableStore : Store := {emptyStore with transactions := some freshTable}

/-- C3 witness: EnsureTable on the existing sample table is a no-op. -/
theorem initDB_no_data_loss_witness :
    ensureTxTable sampleTableStore = sampleTableStore :=
  (initDB_no_data_loss emptyStore).2.2.2.2.2.2.1 sampleTableStore freshTable rfl

/-! ### Fixed-point lemmas: every migration statement is a no-op on a
store already in the shape it establishes -/

theorem ensureUsersTable_of_some {s : Store} {x : UsersTable}
    (h : s.users = some x) : ensureUsersTable s = s := by
  obtain ⟨u, tx, g, c, i, b, p1, p2, p3, f1, f2, f3, f4, f5, j1, j2, j3, j4, j5⟩ := s
  subst h
  rfl

theorem addPinUnique_fix {s : Store} (h : s.pinUnique = true) :
    addPinUnique s = .ok s := by
  obtain ⟨u, tx, g, c, i, b, p1, p2, p3, f1, f2, f3, f4, f5, j1, j2, j3, j4, j5⟩ := s
  subst h
  rfl

theorem ensureTxColumn_fix {s : Store} {x : Table TxRow}
    (h : s.transactions = some x) (h2 : x.hasUserId = true) :
    ensureTxColumn s = s := by
  obtain ⟨u, tx, g, c, i, b, p1, p2, p3, f1, f2, f3, f4, f5, j1, j2, j3, j4, j5⟩ := s
  subst h
  obtain ⟨r, hu2, nn, q⟩ := x
  subst h2
  rfl

theorem ensureGoalsColumn_fix {s : Store} {x : Table GoalRow}
    (h : s.goals = some x) (h2 : x.hasUserId = true) :
    ensureGoalsColumn s = s := by
  obtain ⟨u, tx, g, c, i, b, p1, p2, p3, f1, f2, f3, f4, f5, j1, j2, j3, j4, j5⟩ := s
  subst h
  obtain ⟨r, hu2, nn, q⟩ := x
  subst h2
  rfl

theorem ensureCardsColumn_fix {s : Store} {x : Table CardRow}
    (h : s.cards = some x) (h2 : x.hasUserId = true) :
    ensureCardsColumn s = s := by
  obtain ⟨u, tx, g, c, i, b, p1, p2, p3, f1, f2, f3, f4, f5, j1, j2, j3, j4, j5⟩ := s
  subst h
  obtain ⟨r, hu2, nn, q⟩ := x
  subst h2
  rfl

theorem ensureInvColumn_fix {s : Store} {x : Table InvRow}
    (h : s.investments = some x) (h2 : x.hasUserId = true) :
    ensureInvColumn s = s := by
  obtain ⟨u, tx, g, c, i, b, p1, p2, p3, f1, f2, f3, f4, f5, j1, j2, j3, j4, j5⟩ := s
  subst h
  obtain ⟨r, hu2, nn, q⟩ := x
  subst h2
  rfl

theorem ensureBudgetsColumn_fix {s : Store} {x : Table BudgetRow}
    (h : s.budgets = some x) (h2 : x.hasUserId = true) :
    ensureBudgetsColumn s = s := by
  obtain ⟨u, tx, g, c, i, b, p1, p2, p3, f1, f2, f3, f4, f5, j1, j2, j3, j4, j5⟩ := s
  subst h
  obtain ⟨r, hu2, nn, q⟩ := x
  subst h2
  rfl

theorem ensureTxIndex_fix {s : Store} (h : s.idxTx = true) :
    ensureTxIndex s = s := by
  obtain ⟨u, tx, g, c, i, b, p1, p2, p3, f1, f2, f3, f4, f5, j1, j2, j3, j4, j5⟩ := s
  subst h
  rfl

theorem ensureGoalsIndex_fix {s : Store} (h : s.idxGoals = true) :
    ensureGoalsIndex s = s := by
  obtain ⟨u, tx, g, c, i, b, p1, p2, p3, f1, f2, f3, f4, f5, j1, j2, j3, j4, j5⟩ := s
  subst h
  rfl

theorem ensureCardsIndex_fix {s : Store} (h : s.idxCards = true) :
    ensureCardsIndex s = s := by
  obtain ⟨u, tx, g, c, i, b, p1, p2, p3, f1, f2, f3, f4, f5, j1, j2, j3, j4, j5⟩ := s
  subst h
  rfl

theorem ensureInvIndex_fix {s : Store} (h : s.idxInv = true) :
    ensureInvIndex s = s := by
  obtain ⟨u, tx, g, c, i, b, p1, p2, p3, f1, f2, f3, f4, f5, j1, j2, j3, j4, j5⟩ := s
  subst h
  rfl

theorem ensureBudgetsIndex_fix {s : Store} (h : s.idxBudgets = true) :
    ensureBudgetsIndex s = s := by
  obtain ⟨u, tx, g, c, i, b, p1, p2, p3, f1, f2, f3, f4, f5, j1, j2, j3, j4, j5⟩ := s
  subst h
  rfl

/-- The whole create/column/index chain is a no-op on a store whose
resource tables, user_id columns and indexes are already in place. -/
theorem ensureResources_fix {s : Store} {x1 : Table TxRow}
    {x2 : Table GoalRow} {x3 : Table CardRow} {x4 : Table InvRow}
    {x5 : Table BudgetRow}
    (hxt : s.transactions = some x1) (ht1 : x1.hasUserId = true)
    (hxg : s.goals = some x2) (hg1 : x2.hasUserId = true)
    (hxc : s.cards = some x3) (hc1 : x3.hasUserId = true)
    (hxi : s.investments = some x4) (hi1 : x4.hasUserId = true)
    (hxb : s.budgets = some x5) (hb1 : x5.hasUserId = true)
    (hj1 : s.idxTx = true) (hj2 : s.idxGoals = true)
    (hj3 : s.idxCards = true) (hj4 : s.idxInv = true) :
    ensureResources s = s := by
  unfold ensureResources
  rw [ensureTxTable_of_some hxt, ensureTxColumn_fix hxt ht1,
    ensureTxIndex_fix hj1, ensureGoalsTable_of_some hxg,
    ensureGoalsColumn_fix hxg hg1, ensureGoalsIndex_fix hj2,
    ensureCardsTable_of_some hxc, ensureCardsColumn_fix hxc hc1,
    ensureCardsIndex_fix hj3, ensureInvTable_of_some hxi,
    ensureInvColumn_fix hxi hi1, ensureInvIndex_fix hj4,
    ensureBudgetsTable_of_some hxb, ensureBudgetsColumn_fix hxb hb1]

theorem replaceBudgetsUnique_fix {s : Store}
    (h1 : s.budgetsCategoryKey = false)
    (h2 : s.budgetsUserCategoryUnique = true) :
    replaceBudgetsUnique s = .ok s := by
  obtain ⟨u, tx, g, c, i, b, p1, p2, p3, f1, f2, f3, f4, f5, j1, j2, j3, j4, j5⟩ := s
  subst h1
  subst h2
  rfl

theorem addTxFk_fix {s : Store} (h : s.txFk = true) : addTxFk s = .ok s := by
  obtain ⟨u, tx, g, c, i, b, p1, p2, p3, f1, f2, f3, f4, f5, j1, j2, j3, j4, j5⟩ := s
  subst h
  rfl

theorem addGoalsFk_fix {s : Store} (h : s.goalsFk = true) :
    addGoalsFk s = .ok s := by
  obtain ⟨u, tx, g, c, i, b, p1, p2, p3, f1, f2, f3, f4, f5, j1, j2, j3, j4, j5⟩ := s
  subst h
  rfl

theorem addCardsFk_fix {s : Store} (h : s.cardsFk = true) :
    addCardsFk s = .ok s := by
  obtain ⟨u, tx, g, c, i, b, p1, p2, p3, f1, f2, f3, f4, f5, j1, j2, j3, j4, j5⟩ := s
  subst h
  rfl

theorem addInvFk_fix {s : Store} (h : s.invFk = true) :
    addInvFk s = .ok s := by
  obtain ⟨u, tx, g, c, i, b, p1, p2, p3, f1, f2, f3, f4, f5, j1, j2, j3, j4, j5⟩ := s
  subst h
  rfl

theorem addBudgetsFk_fix {s : Store} (h : s.budgetsFk = true) :
    addBudgetsFk s = .ok s := by
  obtain ⟨u, tx, g, c, i, b, p1, p2, p3, f1, f2, f3, f4, f5, j1, j2, j3, j4, j5⟩ := s
  subst h
  rfl

theorem addForeignKeys_fix {s : Store} (h1 : s.txFk = true)
    (h2 : s.goalsFk = true) (h3 : s.cardsFk = true) (h4 : s.invFk = true)
    (h5 : s.budgetsFk = true) : addForeignKeys s = .ok s := by
  unfold addForeignKeys
  simp only [addTxFk_fix h1, addGoalsFk_fix h2, addCardsFk_fix h3,
    addInvFk_fix h4, addBudgetsFk_fix h5]

/-- Filling a row that already has an owner changes nothing. -/
theorem fillUser_of_owned {ρ : Type} [OwnedRow ρ] {uid : Nat} {r : ρ}
    (h : (OwnedRow.userId r).isSome = true) : fillUser uid r = r := by
  unfold fillUser
  cases hv : OwnedRow.userId r with
  | none => rw [hv] at h; simp at h
  | some v => rfl

/-- A filled row always carries an owner. -/
theorem fillUser_owns {ρ : Type} [OwnedRow ρ] (uid : Nat) (r : ρ) :
    (OwnedRow.userId (fillUser uid r)).isSome = true := by
  unfold fillUser
  cases hv : OwnedRow.userId r with
  | none => rw [OwnedRow.userId_set]; rfl
  | some v => rw [hv]; rfl

/-- Writing back each table's own rows is the identity. -/
theorem setResourceRows_self (s : Store) :
    setResourceRows s (txRowsOf s) (goalsRowsOf s) (cardsRowsOf s)
      (invRowsOf s) (budgetsRowsOf s) = s := by
  obtain ⟨u, tx, g, c, i, b, p1, p2, p3, f1, f2, f3, f4, f5, j1, j2, j3, j4, j5⟩ := s
  cases tx <;> cases g <;> cases c <;> cases i <;> cases b <;> rfl

theorem backfillOwner_not_single {s : Store}
    (h : (usersRowsOf s).length ≠ 1) : backfillOwner s = .ok s := by
  unfold backfillOwner
  rw [if_neg h]

/-- The backfill statement, evaluated when exactly one owner exists. -/
theorem backfillOwner_single {s : Store} {u : UserRow}
    (hu : usersRowsOf s = [u]) :
    backfillOwner s =
      if backfillBlocked s u.id then .error ()
      else .ok (setResourceRows s
        ((txRowsOf s).map (fillUser u.id))
        ((goalsRowsOf s).map (fillUser u.id))
        ((cardsRowsOf s).map (fillUser u.id))
        ((invRowsOf s).map (fillUser u.id))
        ((budgetsRowsOf s).map (fillUser u.id))) := by
  have hlen : (usersRowsOf s).length = 1 := by rw [hu]; rfl
  have hfirst : firstUserId s = some u.id := by
    unfold firstUserId
    rw [hu]
    rfl
  unfold backfillOwner
  rw [if_pos hlen]
  simp only [hfirst]

/-- The backfill statement is a no-op on a store whose resource rows are
all owned (and whose budget keys satisfy the unique constraint when it is
present). -/
theorem backfillOwner_fix {s : Store}
    (htx : ∀ r ∈ txRowsOf s, (OwnedRow.userId r).isSome = true)
    (hg : ∀ r ∈ goalsRowsOf s, (OwnedRow.userId r).isSome = true)
    (hc : ∀ r ∈ cardsRowsOf s, (OwnedRow.userId r).isSome = true)
    (hi : ∀ r ∈ invRowsOf s, (OwnedRow.userId r).isSome = true)
    (hb : ∀ r ∈ budgetsRowsOf s, (OwnedRow.userId r).isSome = true)
    (hnod : s.budgetsUserCategoryUnique = true →
      (budgetKeys (budgetsRowsOf s)).Nodup) :
    backfillOwner s = .ok s := by
  by_cases hlen : (usersRowsOf s).length = 1
  · obtain ⟨u, hu⟩ := List.length_eq_one.mp hlen
    have mtx : (txRowsOf s).map (fillUser u.id) = txRowsOf s :=
      map_eq_self (fun r hr => fillUser_of_owned (htx r hr))
    have mg : (goalsRowsOf s).map (fillUser u.id) = goalsRowsOf s :=
      map_eq_self (fun r hr => fillUser_of_owned (hg r hr))
    have mc : (cardsRowsOf s).map (fillUser u.id) = cardsRowsOf s :=
      map_eq_self (fun r hr => fillUser_of_owned (hc r hr))
    have mi : (invRowsOf s).map (fillUser u.id) = invRowsOf s :=
      map_eq_self (fun r hr => fillUser_of_owned (hi r hr))
    have mb : (budgetsRowsOf s).map (fillUser u.id) = budgetsRowsOf s :=
      map_eq_self (fun r hr => fillUser_of_owned (hb r hr))
    have hnb : ¬ backfillBlocked s u.id := by
      unfold backfillBlocked
      rw [mb]
      rintro ⟨hucu, hnn⟩
      exact hnn (hnod hucu)
    rw [backfillOwner_single hu, if_neg hnb, mtx, mg, mc, mi, mb,
      setResourceRows_self]
  · exact backfillOwner_not_single hlen

/-- The flag carried by SET NOT NULL tightening never changes the column
presence. -/
theorem tightenT_hasUserId {ρ : Type} [OwnedRow ρ] (x : Table ρ) :
    (tightenT x).hasUserId = x.hasUserId := by
  unfold tightenT
  split <;> rfl

theorem tightenT_idem {ρ : Type} [OwnedRow ρ] (x : Table ρ) :
    tightenT (tightenT x) = tightenT x := by
  by_cases hc : rowsAllOwned x.rows = true ∧ ¬ x.userIdNotNull = true
  · unfold tightenT
    rw [if_pos hc, if_neg (by simp)]
  · unfold tightenT
    rw [if_neg hc, if_neg hc]

/-- Tightening twice equals tightening once. -/
theorem tightenNotNull_idem (s : Store) :
    tightenNotNull (tightenNotNull s) = tightenNotNull s := by
  obtain ⟨u, tx, g, c, i, b, p1, p2, p3, f1, f2, f3, f4, f5, j1, j2, j3, j4, j5⟩ := s
  unfold tightenNotNull tightenTx tightenGoals tightenCards tightenInv
    tightenBudgets
  cases tx <;> cases g <;> cases c <;> cases i <;> cases b <;>
    simp [tightenT_idem]

/-! ### Run evaluation on an already-migrated (or mid-failure) store -/

/-- A run on a store whose pin step fails again. -/
theorem initDBRun_pin_err {t : Store} {xu : UsersTable} {e : Unit}
    (hxu : t.users = some xu) (h : addPinUnique t = .error e) :
    initDBRun t = (t, true) := by
  unfold initDBRun
  simp only [ensureUsersTable_of_some hxu, h]

/-- A run on a store whose budgets-constraint step fails again. -/
theorem initDBRun_rep_err {t : Store} {xu : UsersTable} {x1 : Table TxRow}
    {x2 : Table GoalRow} {x3 : Table CardRow} {x4 : Table InvRow}
    {x5 : Table BudgetRow} {e : Unit}
    (hxu : t.users = some xu) (hpin : t.pinUnique = true)
    (hxt : t.transactions = some x1) (ht1 : x1.hasUserId = true)
    (hxg : t.goals = some x2) (hg1 : x2.hasUserId = true)
    (hxc : t.cards = some x3) (hc1 : x3.hasUserId = true)
    (hxi : t.investments = some x4) (hi1 : x4.hasUserId = true)
    (hxb : t.budgets = some x5) (hb1 : x5.hasUserId = true)
    (hj1 : t.idxTx = true) (hj2 : t.idxGoals = true) (hj3 : t.idxCards = true)
    (hj4 : t.idxInv = true)
    (h : replaceBudgetsUnique t = .error e) :
    initDBRun t = (t, true) := by
  unfold initDBRun
  simp only [ensureUsersTable_of_some hxu, addPinUnique_fix hpin,
    ensureResources_fix hxt ht1 hxg hg1 hxc hc1 hxi hi1 hxb hb1 hj1 hj2
      hj3 hj4, h]

/-- A run on a store whose foreign-key step fails again. -/
theorem initDBRun_fk_err {t : Store} {xu : UsersTable} {x1 : Table TxRow}
    {x2 : Table GoalRow} {x3 : Table CardRow} {x4 : Table InvRow}
    {x5 : Table BudgetRow} {e : Unit}
    (hxu : t.users = some xu) (hpin : t.pinUnique = true)
    (hxt : t.transactions = some x1) (ht1 : x1.hasUserId = true)
    (hxg : t.goals = some x2) (hg1 : x2.hasUserId = true)
    (hxc : t.cards = some x3) (hc1 : x3.hasUserId = true)
    (hxi : t.investments = some x4) (hi1 : x4.hasUserId = true)
    (hxb : t.budgets = some x5) (hb1 : x5.hasUserId = true)
    (hj1 : t.idxTx = true) (hj2 : t.idxGoals = true) (hj3 : t.idxCards = true)
    (hj4 : t.idxInv = true) (hj5 : t.idxBudgets = true)
    (hck : t.budgetsCategoryKey = false)
    (hucu : t.budgetsUserCategoryUnique = true)
    (h : addForeignKeys t = .error e) :
    initDBRun t = (t, true) := by
  unfold initDBRun
  simp only [ensureUsersTable_of_some hxu, addPinUnique_fix hpin,
    ensureResources_fix hxt ht1 hxg hg1 hxc hc1 hxi hi1 hxb hb1 hj1 hj2
      hj3 hj4, replaceBudgetsUnique_fix hck hucu,
    ensureBudgetsIndex_fix hj5, h]

/-- A run on a store whose backfill statement fails again. -/
theorem initDBRun_backfill_err {t : Store} {xu : UsersTable}
    {x1 : Table TxRow} {x2 : Table GoalRow} {x3 : Table CardRow}
    {x4 : Table InvRow} {x5 : Table BudgetRow} {e : Unit}
    (hxu : t.users = some xu) (hpin : t.pinUnique = true)
    (hxt : t.transactions = some x1) (ht1 : x1.hasUserId = true)
    (hxg : t.goals = some x2) (hg1 : x2.hasUserId = true)
    (hxc : t.cards = some x3) (hc1 : x3.hasUserId = true)
    (hxi : t.investments = some x4) (hi1 : x4.hasUserId = true)
    (hxb : t.budgets = some x5) (hb1 : x5.hasUserId = true)
    (hj1 : t.idxTx = true) (hj2 : t.idxGoals = true) (hj3 : t.idxCards = true)
    (hj4 : t.idxInv = true) (hj5 : t.idxBudgets = true)
    (hck : t.budgetsCategoryKey = false)
    (hucu : t.budgetsUserCategoryUnique = true)
    (hf1 : t.txFk = true) (hf2 : t.goalsFk = true) (hf3 : t.cardsFk = true)
    (hf4 : t.invFk = true) (hf5 : t.budgetsFk = true)
    (h : backfillOwner t = .error e) :
    initDBRun t = (t, true) := by
  unfold initDBRun runFromBackfill
  simp only [ensureUsersTable_of_some hxu, addPinUnique_fix hpin,
    ensureResources_fix hxt ht1 hxg hg1 hxc hc1 hxi hi1 hxb hb1 hj1 hj2
      hj3 hj4, replaceBudgetsUnique_fix hck hucu,
    ensureBudgetsIndex_fix hj5, addForeignKeys_fix hf1 hf2 hf3 hf4 hf5, h]

/-- A full run on a store that is a fixed point of every step. -/
theorem initDBRun_fix {t : Store} {xu : UsersTable} {x1 : Table TxRow}
    {x2 : Table GoalRow} {x3 : Table CardRow} {x4 : Table InvRow}
    {x5 : Table BudgetRow}
    (hxu : t.users = some xu) (hpin : t.pinUnique = true)
    (hxt : t.transactions = some x1) (ht1 : x1.hasUserId = true)
    (hxg : t.goals = some x2) (hg1 : x2.hasUserId = true)
    (hxc : t.cards = some x3) (hc1 : x3.hasUserId = true)
    (hxi : t.investments = some x4) (hi1 : x4.hasUserId = true)
    (hxb : t.budgets = some x5) (hb1 : x5.hasUserId = true)
    (hj1 : t.idxTx = true) (hj2 : t.idxGoals = true) (hj3 : t.idxCards = true)
    (hj4 : t.idxInv = true) (hj5 : t.idxBudgets = true)
    (hck : t.budgetsCategoryKey = false)
    (hucu : t.budgetsUserCategoryUnique = true)
    (hf1 : t.txFk = true) (hf2 : t.goalsFk = true) (hf3 : t.cardsFk = true)
    (hf4 : t.invFk = true) (hf5 : t.budgetsFk = true)
    (hback : backfillOwner t = .ok t)
    (htight : tightenNotNull t = t) :
    initDBRun t = (t, false) := by
  unfold initDBRun runFromBackfill
  simp only [ensureUsersTable_of_some hxu, addPinUnique_fix hpin,
    ensureResources_fix hxt ht1 hxg hg1 hxc hc1 hxi hi1 hxb hb1 hj1 hj2
      hj3 hj4, replaceBudgetsUnique_fix hck hucu,
    ensureBudgetsIndex_fix hj5, addForeignKeys_fix hf1 hf2 hf3 hf4 hf5,
    hback, htight]

/-- The backfill's per-row outcome for a single owner uid: a null
user_id receives the owner, any other row is untouched. -/
def backfilled {ρ : Type} [OwnedRow ρ] (uid : Nat) (r r' : ρ) : Prop :=
  (OwnedRow.userId r = none → r' = OwnedRow.setUserId r (some uid)) ∧
  (OwnedRow.userId r ≠ none → r' = r)

theorem forall₂_backfilled {ρ : Type} [OwnedRow ρ] (uid : Nat) (l : List ρ) :
    List.Forall₂ (backfilled uid) l (l.map (fillUser uid)) := by
  induction l with
  | nil => exact List.Forall₂.nil
  | cons a t ih =>
    refine List.Forall₂.cons ⟨?_, ?_⟩ ih
    · intro ha
      unfold fillUser
      rw [ha]
    · intro ha
      unfold fillUser
      cases hv : OwnedRow.userId a with
      | none => exact absurd hv ha
      | some v => rfl

/-- What the tail of the run does from the Backfilled stage when exactly
one owner row exists: if the budgets UPDATE would violate the uniqueness
constraint, the whole backfill statement fails (and rolls back); otherwise
every null user_id is set to the owner's id and tightening follows. -/
theorem runFromBackfill_single (s : Store) (u : UserRow)
    (hu : usersRowsOf s = [u]) :
    runFromBackfill s =
      if backfillBlocked s u.id then (s, true)
      else
        (tightenNotNull (setResourceRows s
          ((txRowsOf s).map (fillUser u.id))
          ((goalsRowsOf s).map (fillUser u.id))
          ((cardsRowsOf s).map (fillUser u.id))
          ((invRowsOf s).map (fillUser u.id))
          ((budgetsRowsOf s).map (fillUser u.id))), false) := by
  have hlen : (usersRowsOf s).length = 1 := by rw [hu]; rfl
  have hfirst : firstUserId s = some u.id := by
    unfold firstUserId
    rw [hu]
    rfl
  unfold runFromBackfill backfillOwner
  rw [if_pos hlen]
  simp only [hfirst]
  by_cases hb : backfillBlocked s u.id
  · rw [if_pos hb, if_pos hb]
  · rw [if_neg hb, if_neg hb]

/-- C1 amended: at the Backfilled stage, when exactly one Owner row
exists and assigning that owner to the unowned rows does not violate the
budgets (user_id, category) uniqueness constraint, the run sets every
previously-null user_id in all five resource tables to that owner's id
(pointwise, leaving all other rows and fields untouched); when the
assignment would violate the constraint, the backfill statement fails and
rolls back, so every previously-null user_id remains null; and when zero
or two-or-more Owner rows exist no owner is assigned at all. -/
theorem backfill_single_owner (s : Store) :
    (∀ u : UserRow, usersRowsOf s = [u] →
      (¬ backfillBlocked s u.id →
        (runFromBackfill s).2 = false ∧
        List.Forall₂ (backfilled u.id) (txRowsOf s)
          (txRowsOf (runFromBackfill s).1) ∧
        List.Forall₂ (backfilled u.id) (goalsRowsOf s)
          (goalsRowsOf (runFromBackfill s).1) ∧
        List.Forall₂ (backfilled u.id) (cardsRowsOf s)
          (cardsRowsOf (runFromBackfill s).1) ∧
        List.Forall₂ (backfilled u.id) (invRowsOf s)
          (invRowsOf (runFromBackfill s).1) ∧
        List.Forall₂ (backfilled u.id) (budgetsRowsOf s)
          (budgetsRowsOf (runFromBackfill s).1)) ∧
      (backfillBlocked s u.id →
        (runFromBackfill s).2 = true ∧
        txRowsOf (runFromBackfill s).1 = txRowsOf s ∧
        goalsRowsOf (runFromBackfill s).1 = goalsRowsOf s ∧
        cardsRowsOf (runFromBackfill s).1 = cardsRowsOf s ∧
        invRowsOf (runFromBackfill s).1 = invRowsOf s ∧
        budgetsRowsOf (runFromBackfill s).1 = budgetsRowsOf s)) ∧
    ((usersRowsOf s).length ≠ 1 →
      txRowsOf (runFromBackfill s).1 = txRowsOf s ∧
      goalsRowsOf (runFromBackfill s).1 = goalsRowsOf s ∧
      cardsRowsOf (runFromBackfill s).1 = cardsRowsOf s ∧
      invRowsOf (runFromBackfill s).1 = invRowsOf s ∧
      budgetsRowsOf (runFromBackfill s).1 = budgetsRowsOf s) := by
  constructor
  · intro u hu
    have hrun := runFromBackfill_single s u hu
    constructor
    · intro hnb
      rw [hrun, if_neg hnb]
      obtain ⟨b1, b2, b3, b4, b5, b6⟩ := sameRows_tightenNotNull
        (setResourceRows s
          ((txRowsOf s).map (fillUser u.id))
          ((goalsRowsOf s).map (fillUser u.id))
          ((cardsRowsOf s).map (fillUser u.id))
          ((invRowsOf s).map (fillUser u.id))
          ((budgetsRowsOf s).map (fillUser u.id)))
      refine ⟨rfl, ?_, ?_, ?_, ?_, ?_⟩
      · rw [show ((tightenNotNull (setResourceRows s
            ((txRowsOf s).map (fillUser u.id))
            ((goalsRowsOf s).map (fillUser u.id))
            ((cardsRowsOf s).map (fillUser u.id))
            ((invRowsOf s).map (fillUser u.id))
            ((budgetsRowsOf s).map (fillUser u.id))), false).1 : Store) =
            tightenNotNull (setResourceRows s
            ((txRowsOf s).map (fillUser u.id))
            ((goalsRowsOf s).map (fillUser u.id))
            ((cardsRowsOf s).map (fillUser u.id))
            ((invRowsOf s).map (fillUser u.id))
            ((budgetsRowsOf s).map (fillUser u.id))) from rfl,
          b2, txRowsOf_setResourceRows]
        exact forall₂_backfilled u.id _
      · rw [show ((tightenNotNull (setResourceRows s
            ((txRowsOf s).map (fillUser u.id))
            ((goalsRowsOf s).map (fillUser u.id))
            ((cardsRowsOf s).map (fillUser u.id))
            ((invRowsOf s).map (fillUser u.id))
            ((budgetsRowsOf s).map (fillUser u.id))), false).1 : Store) =
            tightenNotNull (setResourceRows s
            ((txRowsOf s).map (fillUser u.id))
            ((goalsRowsOf s).map (fillUser u.id))
            ((cardsRowsOf s).map (fillUser u.id))
            ((invRowsOf s).map (fillUser u.id))
            ((budgetsRowsOf s).map (fillUser u.id))) from rfl,
          b3, goalsRowsOf_setResourceRows]
        exact forall₂_backfilled u.id _
      · rw [show ((tightenNotNull (setResourceRows s
            ((txRowsOf s).map (fillUser u.id))
            ((goalsRowsOf s).map (fillUser u.id))
            ((cardsRowsOf s).map (fillUser u.id))
            ((invRowsOf s).map (fillUser u.id))
            ((budgetsRowsOf s).map (fillUser u.id))), false).1 : Store) =
            tightenNotNull (setResourceRows s
            ((txRowsOf s).map (fillUser u.id))
            ((goalsRowsOf s).map (fillUser u.id))
            ((cardsRowsOf s).map (fillUser u.id))
            ((invRowsOf s).map (fillUser u.id))
            ((budgetsRowsOf s).map (fillUser u.id))) from rfl,
          b4, cardsRowsOf_setResourceRows]
        exact forall₂_backfilled u.id _
      · rw [show ((tightenNotNull (setResourceRows s
            ((txRowsOf s).map (fillUser u.id))
            ((goalsRowsOf s).map (fillUser u.id))
            ((cardsRowsOf s).map (fillUser u.id))
            ((invRowsOf s).map (fillUser u.id))
            ((budgetsRowsOf s).map (fillUser u.id))), false).1 : Store) =
            tightenNotNull (setResourceRows s
            ((txRowsOf s).map (fillUser u.id))
            ((goalsRowsOf s).map (fillUser u.id))
            ((cardsRowsOf s).map (fillUser u.id))
            ((invRowsOf s).map (fillUser u.id))
            ((budgetsRowsOf s).map (fillUser u.id))) from rfl,
          b5, invRowsOf_setResourceRows]
        exact forall₂_backfilled u.id _
      · rw [show ((tightenNotNull (setResourceRows s
            ((txRowsOf s).map (fillUser u.id))
            ((goalsRowsOf s).map (fillUser u.id))
            ((cardsRowsOf s).map (fillUser u.id))
            ((invRowsOf s).map (fillUser u.id))
            ((budgetsRowsOf s).map (fillUser u.id))), false).1 : Store) =
            tightenNotNull (setResourceRows s
            ((txRowsOf s).map (fillUser u.id))
            ((goalsRowsOf s).map (fillUser u.id))
            ((cardsRowsOf s).map (fillUser u.id))
            ((invRowsOf s).map (fillUser u.id))
            ((budgetsRowsOf s).map (fillUser u.id))) from rfl,
          b6, budgetsRowsOf_setResourceRows]
        exact forall₂_backfilled u.id _
    · intro hb
      rw [hrun, if_pos hb]
      exact ⟨rfl, rfl, rfl, rfl, rfl, rfl⟩
  · intro hlen
    have hok : backfillOwner s = .ok s := by
      unfold backfillOwner
      rw [if_neg hlen]
    unfold runFromBackfill
    simp only [hok]
    obtain ⟨_, b2, b3, b4, b5, b6⟩ := sameRows_tightenNotNull s
    exact ⟨b2, b3, b4, b5, b6⟩

/-- A Backfilled-stage store: one owner (ana), one unowned legacy
transaction, and two unowned budget rows sharing the category food, with
the whole multi-tenant schema (constraints, indexes, foreign keys)
already in place. -/
def cxStore : Store :=
  {users := some {rows := [ana], seq := 2},
   transactions := some {rows := [legacyTx], hasUserId := true, userIdNotNull := false, seq := 2},
   goals := some freshTable,
   cards := some freshTable,
   investments := some freshTable,
   budgets := some {rows := [legacyBudget, legacyBudget2], hasUserId := true, userIdNotNull := false, seq := 3},
   pinUnique := true,
   budgetsCategoryKey := false,
   budgetsUserCategoryUnique := true,
   txFk := true, goalsFk := true, cardsFk := true, invFk := true,
   budgetsFk := true,
   idxTx := true, idxGoals := true, idxCards := true, idxInv := true,
   idxBudgets := true}

/-- C1 counterexample: on `cxStore` exactly one Owner row exists and the
transactions table holds a row with null user_id, yet after the run from
the Backfilled stage that row is STILL null — the backfill UPDATE on
budgets violated budgets_user_category_unique (two unowned rows share
category food), the whole statement rolled back, and no table was
backfilled.  This contradicts the claim that with exactly one Owner every
previously-null user_id ends up equal to the Owner's identifier. -/
theorem backfill_single_owner_cx :
    usersRowsOf cxStore = [ana] ∧
    txRowsOf cxStore = [legacyTx] ∧
    legacyTx.user_id = none ∧
    ana.id = 1 ∧
    txRowsOf (runFromBackfill cxStore).1 = [legacyTx] ∧
    budgetsRowsOf (runFromBackfill cxStore).1 = [legacyBudget, legacyBudget2] ∧
    legacyBudget.user_id = none ∧ legacyBudget2.user_id = none := by
  refine ⟨rfl, rfl, rfl, rfl, ?_, ?_, rfl, rfl⟩ <;> decide

/-- A Backfilled-stage store where the backfill can proceed: as cxStore
but with a single unowned budget row. -/
def singleOwnerStore : Store :=
  {cxStore with
    budgets := some {rows := [legacyBudget], hasUserId := true, userIdNotNull := false, seq := 2}}

/-- C1 witness: on `singleOwnerStore` the backfill is not blocked, the
run succeeds, and the per-row backfill relation holds on transactions. -/
theorem backfill_single_owner_witness :
    (runFromBackfill singleOwnerStore).2 = false ∧
    List.Forall₂ (backfilled ana.id) (txRowsOf singleOwnerStore)
      (txRowsOf (runFromBackfill singleOwnerStore).1) := by
  have h := ((backfill_single_owner singleOwnerStore).1 ana rfl).1 (by decide)
  exact ⟨h.1, h.2.1⟩

/-- C9: for every owner identifier, each List endpoint returns exactly the
rows whose user_id equals that identifier (as a permutation of the
SQL-level filter, hence with an explicit membership characterisation), and
the result is sorted resource-specifically: transactions by date
descending then id descending (`txOrd`), goals, cards, investments and
budgets by id ascending. -/
theorem list_scoped_and_ordered (uid : Nat) (tx : List TxRow)
    (g : List GoalRow) (c : List CardRow) (i : List InvRow)
    (b : List BudgetRow) :
    ((listTransactions tx uid).Perm
        (tx.filter (fun r => decide (r.user_id = some uid))) ∧
      (listTransactions tx uid).Sorted txOrd ∧
      (∀ r, r ∈ listTransactions tx uid ↔ r ∈ tx ∧ r.user_id = some uid)) ∧
    ((listGoals g uid).Perm
        (g.filter (fun r => decide (r.user_id = some uid))) ∧
      (listGoals g uid).Sorted goalOrd ∧
      (∀ r, r ∈ listGoals g uid ↔ r ∈ g ∧ r.user_id = some uid)) ∧
    ((listCards c uid).Perm
        (c.filter (fun r => decide (r.user_id = some uid))) ∧
      (listCards c uid).Sorted cardOrd ∧
      (∀ r, r ∈ listCards c uid ↔ r ∈ c ∧ r.user_id = some uid)) ∧
    ((listInvestments i uid).Perm
        (i.filter (fun r => decide (r.user_id = some uid))) ∧
      (listInvestments i uid).Sorted invOrd ∧
      (∀ r, r ∈ listInvestments i uid ↔ r ∈ i ∧ r.user_id = some uid)) ∧
    ((listBudgets b uid).Perm
        (b.filter (fun r => decide (r.user_id = some uid))) ∧
      (listBudgets b uid).Sorted budgetOrd ∧
      (∀ r, r ∈ listBudgets b uid ↔ r ∈ b ∧ r.user_id = some uid)) := by
  refine ⟨⟨List.perm_insertionSort _ _, List.sorted_insertionSort _ _, ?_⟩,
    ⟨List.perm_insertionSort _ _, List.sorted_insertionSort _ _, ?_⟩,
    ⟨List.perm_insertionSort _ _, List.sorted_insertionSort _ _, ?_⟩,
    ⟨List.perm_insertionSort _ _, List.sorted_insertionSort _ _, ?_⟩,
    ⟨List.perm_insertionSort _ _, List.sorted_insertionSort _ _, ?_⟩⟩ <;>
    intro r <;>
    simp [listTransactions, listGoals, listCards, listInvestments,
      listBudgets, List.mem_insertionSort, List.mem_filter]

/-- C9 witness: the owned sample transaction is listed for owner 7. -/
theorem list_scoped_and_ordered_witness :
    txOf7 ∈ listTransactions [legacyTx, txOf7, txOf8] 7 :=
  ((list_scoped_and_ordered 7 [legacyTx, txOf7, txOf8] [] [] [] []).1.2.2
    txOf7).mpr ⟨by simp, by decide⟩

/-- C10: the requireUserId gate accepts a request exactly when the
x-user-id header is present and `Number(header)` — the `StringToNumber`
coercion `strToNumber` judged by the double predicates `jsIsFinite` and
`jsLeZero` — is a finite value strictly greater than zero; the
non-integral header "2.5" is accepted with identifier 5/2, which equals
no integer, so the accepted set exceeds the positive integers; and a
handler guarded by the middleware only ever runs when the gate accepted. -/
theorem requireUserId_gate :
    (∀ h : Option String, (requireUserId h).isSome ↔
      ∃ raw, h = some raw ∧ jsIsFinite (strToNumber raw) = true ∧
        jsLeZero (strToNumber raw) = false) ∧
    requireUserId (some "2.5") = some (5 / 2 : ℚ) ∧
    (∀ n : ℤ, ((5 : ℚ) / 2) ≠ (n : ℚ)) ∧
    (∀ (α : Type) (handler : ℚ → α) (h : Option String) (y : α),
      withUser handler h = some y → (requireUserId h).isSome) := by
  have hempty : jsLeZero (strToNumber "") = true := by
    have h0 : strToNumber "" = JsNum.val 0 := rfl
    rw [h0]
    show decide ((0 : ℚ) ≤ dblZeroBound) = true
    rw [decide_eq_true_eq]
    unfold dblZeroBound
    positivity
  have hchar : ∀ raw : String, (checkUserId raw).isSome ↔
      (jsIsFinite (strToNumber raw) = true ∧
       jsLeZero (strToNumber raw) = false) := by
    intro raw
    unfold checkUserId
    by_cases hraw : raw = ""
    · rw [if_pos (Or.inl hraw)]
      simp only [Option.isSome_none, Bool.false_eq_true, false_iff, not_and]
      intro _ hle
      rw [hraw, hempty] at hle
      exact Bool.noConfusion hle
    · cases hfin : jsIsFinite (strToNumber raw) with
      | false => simp
      | true =>
        cases hle : jsLeZero (strToNumber raw) with
        | true => simp
        | false =>
          rw [if_neg (by simp [hraw])]
          cases hs : strToNumber raw with
          | val q => simp
          | inf b =>
            rw [hs] at hfin
            exact Bool.noConfusion hfin
          | nan =>
            rw [hs] at hfin
            exact Bool.noConfusion hfin
  have hparse : strToNumber "2.5" =
      JsNum.val ((2 : ℚ) + (5 : ℚ) / (10 : ℚ) ^ 1) := rfl
  have hval : ((2 : ℚ) + (5 : ℚ) / (10 : ℚ) ^ 1) = 5 / 2 := by
    norm_num
  have hfin25 : jsIsFinite (strToNumber "2.5") = true := by
    rw [hparse]
    show decide (|(2 : ℚ) + (5 : ℚ) / (10 : ℚ) ^ 1| < dblOverflowBound) = true
    rw [decide_eq_true_eq, hval]
    unfold dblOverflowBound
    rw [abs_of_pos (by norm_num)]
    norm_num
  have hle25 : jsLeZero (strToNumber "2.5") = false := by
    rw [hparse]
    show decide (((2 : ℚ) + (5 : ℚ) / (10 : ℚ) ^ 1) ≤ dblZeroBound) = false
    rw [decide_eq_false_iff_not, hval]
    unfold dblZeroBound
    norm_num
  refine ⟨?_, ?_, ?_, ?_⟩
  · intro h
    constructor
    · intro hs
      match h with
      | none => simp [requireUserId] at hs
      | some raw =>
        have hs2 : (checkUserId raw).isSome := hs
        obtain ⟨hfin, hle⟩ := (hchar raw).mp hs2
        exact ⟨raw, rfl, hfin, hle⟩
    · rintro ⟨raw, rfl, hfin, hle⟩
      show (checkUserId raw).isSome
      exact (hchar raw).mpr ⟨hfin, hle⟩
  · show checkUserId "2.5" = some (5 / 2 : ℚ)
    unfold checkUserId
    rw [if_neg (by
      rintro (h1 | h2 | h3)
      · exact absurd h1 (by decide)
      · rw [hfin25] at h2
        exact Bool.noConfusion h2
      · rw [hle25] at h3
        exact Bool.noConfusion h3)]
    simp only [hparse]
    exact congrArg some hval
  · intro n hn
    have h5 : (5 : ℚ) = (n : ℚ) * 2 := by
      field_simp at hn
      exact_mod_cast hn
    have h6 : (5 : ℤ) = n * 2 := by exact_mod_cast h5
    omega
  · intro α handler h y hw
    unfold withUser at hw
    cases hr : requireUserId h with
    | none => rw [hr] at hw; simp at hw
    | some q => simp [hr]

/-- C10 witness: the gate accepts the concrete header "2.5". -/
theorem requireUserId_gate_witness : (requireUserId (some "2.5")).isSome := by
  rw [requireUserId_gate.2.1]
  rfl

/-- C4: for distinct owners a and b, Update and Delete issued by a against
the identifier of a row owned by b match zero rows (the route then answers
404) and leave the row list unchanged; in general the UPDATE/DELETE hits a
row exactly when a row with that id belongs to the calling owner — the
same zero-rowCount NotFound arises whether the row is absent or
foreign-owned. -/
theorem tenant_isolation_update_delete (rows : List TxRow) (a b rid : Nat)
    (f : TxFields) (r : TxRow) (hab : a ≠ b)
    (hnodup : (rows.map (fun x => x.id)).Nodup)
    (hr : r ∈ rows) (hid : r.id = rid) (hown : r.user_id = some b) :
    updateTransaction rows a rid f = (rows, 0) ∧
    deleteTransaction rows a rid = (rows, 0) ∧
    (∀ (owner i : Nat) (g : TxFields),
      0 < (updateTransaction rows owner i g).2 ↔
        ∃ x ∈ rows, x.id = i ∧ x.user_id = some owner) := by
  have hnomatch : ∀ x ∈ rows, ¬ (x.id = rid ∧ x.user_id = some a) := by
    rintro x hx ⟨hxid, hxa⟩
    have hxr : x = r :=
      List.inj_on_of_nodup_map hnodup hx hr (by rw [hxid, hid])
    rw [hxr, hown] at hxa
    exact hab (Option.some.inj hxa).symm
  have hfil0 : rows.filter
      (fun x => decide (x.id = rid ∧ x.user_id = some a)) = [] :=
    List.filter_eq_nil_iff.mpr (fun x hx => by
      simp only [decide_eq_true_eq]
      exact hnomatch x hx)
  refine ⟨?_, ?_, ?_⟩
  · unfold updateTransaction
    rw [map_eq_self (fun x hx => if_neg (hnomatch x hx)), hfil0]
    rfl
  · unfold deleteTransaction
    rw [hfil0, List.filter_eq_self.mpr
      (fun x hx => decide_eq_true (hnomatch x hx))]
    rfl
  · intro owner i g
    unfold updateTransaction
    simp only []
    constructor
    · intro hpos
      rw [List.length_pos] at hpos
      rcases List.exists_mem_of_ne_nil _ hpos with ⟨x, hx⟩
      have hm := List.mem_filter.mp hx
      exact ⟨x, hm.1, by simpa using hm.2⟩
    · rintro ⟨x, hx, hxi, hxo⟩
      have hm : x ∈ rows.filter
          (fun y => decide (y.id = i ∧ y.user_id = some owner)) :=
        List.mem_filter.mpr ⟨hx, by simp [hxi, hxo]⟩
      exact List.length_pos.mpr (List.ne_nil_of_mem hm)

/-- C4 witness: owner 7 cannot touch owner 8's row with id 3. -/
theorem tenant_isolation_update_delete_witness :
    updateTransaction [txOf8] 7 3 sampleFields = ([txOf8], 0) ∧
    deleteTransaction [txOf8] 7 3 = ([txOf8], 0) :=
  ⟨(tenant_isolation_update_delete [txOf8] 7 8 3 sampleFields txOf8
      (by decide) (by decide) (by simp) rfl rfl).1,
    (tenant_isolation_update_delete [txOf8] 7 8 3 sampleFields txOf8
      (by decide) (by decide) (by simp) rfl rfl).2.1⟩

/-- A first user of the dupPinStore scenario. -/
def userA : UserRow := {id := 1, name := "alice", pin := "p"}

/-- A second user with the same pin. -/
def userB : UserRow := {id := 2, name := "bruno", pin := "p"}

/-- A store in which the users_pin_unique step must fail: the constraint
is absent and two existing users share a pin. -/
def dupPinStore : Store :=
  {emptyStore with users := some {rows := [userA, userB], seq := 3}}

/-- C6 counterexample: on `dupPinStore` a required schema step
(users_pin_unique) fails, the run reports the error — yet startup still
proceeds to serve traffic, because the catch block of `initDB` only logs
and `app.listen` is invoked unconditionally.  The claim that a failing
migration aborts process startup is therefore false on this input. -/
theorem migration_failure_still_serves_cx :
    migrationErrored dupPinStore = true ∧ (startup dupPinStore).2 = true := by
  exact ⟨by decide, rfl⟩

/-- C6 amended: a migration failure never aborts startup; the error is
caught and logged and the server begins listening regardless. -/
theorem startup_listens_after_error (s : Store)
    (_h : migrationErrored s = true) : (startup s).2 = true := rfl

/-- C6 amended witness: the failing dupPinStore still serves. -/
theorem startup_listens_after_error_witness :
    (startup dupPinStore).2 = true :=
  startup_listens_after_error dupPinStore (by decide)

/-- C8: registering a fresh pin inserts exactly one user row with that
pin; a second registration carrying the same pin reports Conflict (409)
and leaves the users table untouched; pin uniqueness holds before and
after both calls. -/
theorem register_duplicate_pin (t : UsersTable) (n1 n2 pin : String)
    (hn1 : n1 ≠ "") (hn2 : n2 ≠ "") (hp : pin ≠ "")
    (hfresh : ∀ u ∈ t.rows, u.pin ≠ pin)
    (hnodup : (t.rows.map (fun u => u.pin)).Nodup) :
    (register t n1 pin).2 = PostResult.ok t.seq ∧
    ((register t n1 pin).1.rows.filter
      (fun u => decide (u.pin = pin))).length = 1 ∧
    (register (register t n1 pin).1 n2 pin).2 = PostResult.conflict ∧
    (register (register t n1 pin).1 n2 pin).1 = (register t n1 pin).1 ∧
    ((register t n1 pin).1.rows.map (fun u => u.pin)).Nodup := by
  have hnb1 : ¬ (n1 = "" ∨ pin = "") := by
    rintro (h | h)
    exacts [hn1 h, hp h]
  have hnb2 : ¬ (n2 = "" ∨ pin = "") := by
    rintro (h | h)
    exacts [hn2 h, hp h]
  have hany : t.rows.any (fun u => decide (u.pin = pin)) = false := by
    rw [List.any_eq_false]
    intro u hu
    simpa using hfresh u hu
  have hr1 : register t n1 pin =
      ({rows := t.rows ++ [{id := t.seq, name := n1, pin := pin}],
        seq := t.seq + 1}, PostResult.ok t.seq) := by
    unfold register
    rw [if_neg hnb1, hany]
    rfl
  have hrows1 : (register t n1 pin).1.rows =
      t.rows ++ [{id := t.seq, name := n1, pin := pin}] := by
    rw [hr1]
  have hany2 : (register t n1 pin).1.rows.any
      (fun u => decide (u.pin = pin)) = true := by
    rw [hrows1, List.any_eq_true]
    exact ⟨{id := t.seq, name := n1, pin := pin}, by simp⟩
  have hconf : ∀ u : UsersTable,
      u.rows.any (fun w => decide (w.pin = pin)) = true →
      register u n2 pin = (u, PostResult.conflict) := by
    intro u hu
    unfold register
    rw [if_neg hnb2]
    simp [hu]
  have hr2 : register (register t n1 pin).1 n2 pin =
      ((register t n1 pin).1, PostResult.conflict) :=
    hconf (register t n1 pin).1 hany2
  refine ⟨by rw [hr1], ?_, by rw [hr2], by rw [hr2], ?_⟩
  · rw [hrows1, List.filter_append,
      List.filter_eq_nil_iff.mpr (fun u hu => by simpa using hfresh u hu)]
    simp
  · rw [hrows1]
    simp only [List.map_append, List.map_cons, List.map_nil]
    rw [List.nodup_append]
    refine ⟨hnodup, by simp, ?_⟩
    intro x hx
    simp only [List.mem_map] at hx
    rcases hx with ⟨u, hu, hup⟩
    simp only [List.mem_cons, List.not_mem_nil, or_false]
    intro hxp
    exact hfresh u hu (by rw [hup, hxp])

/-- The per-row effect of the upsert UPDATE
`UPDATE budgets SET limit_amount=$1 WHERE id=$2 AND user_id=$3`. -/
def setLimit (i owner : Nat) (l : Int) (r : BudgetRow) : BudgetRow :=
  if r.id = i ∧ r.user_id = some owner then {r with limit_amount := l} else r

/-- `setLimit` never changes the natural key of a row. -/
theorem budgetKeyMatch_setLimit (owner : Nat) (cat : String) (i o : Nat)
    (l : Int) (r : BudgetRow) :
    budgetKeyMatch owner cat (setLimit i o l r) = budgetKeyMatch owner cat r := by
  unfold setLimit
  split <;> rfl

/-- Filtering by the natural key commutes with the upsert UPDATE. -/
theorem filter_key_map_setLimit (owner : Nat) (cat : String) (i o : Nat)
    (l : Int) (rows : List BudgetRow) :
    (rows.map (setLimit i o l)).filter (budgetKeyMatch owner cat) =
      (rows.filter (budgetKeyMatch owner cat)).map (setLimit i o l) := by
  rw [List.filter_map]
  congr 1
  apply List.filter_congr
  intro x _
  exact budgetKeyMatch_setLimit owner cat i o l x

/-- Splitting a list of length at most one. -/
theorem length_le_one_split {α : Type} (l : List α) (h : l.length ≤ 1) :
    l = [] ∨ ∃ a, l = [a] := by
  match l, h with
  | [], _ => exact Or.inl rfl
  | [a], _ => exact Or.inr ⟨a, rfl⟩

/-- The update branch of `upsertBudget`, as executed when the natural-key
SELECT returns a row. -/
theorem upsertBudget_update (t : Table BudgetRow) (owner : Nat)
    (cat : String) (l : Int) (r0 : BudgetRow) (hcat : cat ≠ "")
    (hsel : (t.rows.filter (budgetKeyMatch owner cat)).head? = some r0) :
    upsertBudget t owner cat l =
      ({t with rows := t.rows.map (setLimit r0.id owner l)}, PostResult.ok r0.id) := by
  unfold upsertBudget
  rw [if_neg hcat, hsel]
  rfl

/-- The insert branch of `upsertBudget`, as executed when the natural-key
SELECT returns nothing. -/
theorem upsertBudget_insert (t : Table BudgetRow) (owner : Nat)
    (cat : String) (l : Int) (hcat : cat ≠ "")
    (hsel : (t.rows.filter (budgetKeyMatch owner cat)).head? = none) :
    upsertBudget t owner cat l =
      ({t with
          rows := t.rows ++ [insertedBudget t owner cat l],
          seq := t.seq + 1}, PostResult.ok t.seq) := by
  unfold upsertBudget
  rw [if_neg hcat, hsel]

/-- C5: under the budgets uniqueness invariant (at most one row per
natural key), UpsertBudget updates the existing row's limit in place and
returns its identifier when the key is present, inserts a fresh row with
the next SERIAL identifier when absent — and consequently two sequential
upserts of limits l1 then l2 for the same (owner, category) leave exactly
one row for that key, carrying limit l2, never two rows. -/
theorem upsertBudget_convergence (t : Table BudgetRow) (owner : Nat)
    (cat : String) (l1 l2 : Int) (hcat : cat ≠ "")
    (hkey : (t.rows.filter (budgetKeyMatch owner cat)).length ≤ 1) :
    (((upsertBudget (upsertBudget t owner cat l1).1 owner cat l2).1.rows.filter
        (budgetKeyMatch owner cat)).map (fun r => r.limit_amount) = [l2]) ∧
    (∃ i, (upsertBudget (upsertBudget t owner cat l1).1 owner cat l2).2 =
      PostResult.ok i) ∧
    ((t.rows.filter (budgetKeyMatch owner cat)) = [] →
      (upsertBudget t owner cat l1).2 = PostResult.ok t.seq ∧
      (upsertBudget t owner cat l1).1.rows.length = t.rows.length + 1) ∧
    (∀ r0, (t.rows.filter (budgetKeyMatch owner cat)).head? = some r0 →
      (upsertBudget t owner cat l1).2 = PostResult.ok r0.id ∧
      (upsertBudget t owner cat l1).1.rows.length = t.rows.length) := by
  rcases length_le_one_split _ hkey with hfil | ⟨r0, hfil⟩
  · -- no row for the key yet: first call inserts, second call updates it
    have h1 := upsertBudget_insert t owner cat l1 hcat (by rw [hfil]; rfl)
    have hrows1 : (upsertBudget t owner cat l1).1.rows =
        t.rows ++ [insertedBudget t owner cat l1] := by rw [h1]
    have hfil1 : (upsertBudget t owner cat l1).1.rows.filter
        (budgetKeyMatch owner cat) = [insertedBudget t owner cat l1] := by
      rw [hrows1, List.filter_append, hfil]
      simp [budgetKeyMatch, insertedBudget]
    have h2 := upsertBudget_update (upsertBudget t owner cat l1).1 owner cat l2
      (insertedBudget t owner cat l1) hcat (by rw [hfil1]; rfl)
    refine ⟨?_, ⟨t.seq, by rw [h2]; rfl⟩,
      fun _ => ⟨by rw [h1], by rw [hrows1]; simp⟩, ?_⟩
    · have hrows2 : (upsertBudget (upsertBudget t owner cat l1).1 owner
          cat l2).1.rows =
          (upsertBudget t owner cat l1).1.rows.map
            (setLimit t.seq owner l2) := by rw [h2]; rfl
      rw [hrows2, filter_key_map_setLimit, hfil1]
      simp [setLimit, insertedBudget]
    · intro r0 hsel
      rw [hfil] at hsel
      cases hsel
  · -- a row already exists: both calls update it in place
    have hr0 : r0 ∈ t.rows.filter (budgetKeyMatch owner cat) := by
      rw [hfil]; exact List.mem_singleton_self r0
    have hr0key : r0.user_id = some owner ∧ r0.category = cat := by
      have := (List.mem_filter.mp hr0).2
      simpa [budgetKeyMatch] using this
    have h1 := upsertBudget_update t owner cat l1 r0 hcat (by rw [hfil]; rfl)
    have hrows1 : (upsertBudget t owner cat l1).1.rows =
        t.rows.map (setLimit r0.id owner l1) := by rw [h1]
    have hfil1 : (upsertBudget t owner cat l1).1.rows.filter
        (budgetKeyMatch owner cat) = [{r0 with limit_amount := l1}] := by
      rw [hrows1, filter_key_map_setLimit, hfil]
      simp [setLimit, hr0key.1]
    have h2 := upsertBudget_update (upsertBudget t owner cat l1).1 owner cat l2
      {r0 with limit_amount := l1} hcat (by rw [hfil1]; rfl)
    refine ⟨?_, ⟨r0.id, by rw [h2]⟩, ?_, ?_⟩
    · have : (upsertBudget (upsertBudget t owner cat l1).1 owner cat l2).1.rows =
          (upsertBudget t owner cat l1).1.rows.map
            (setLimit r0.id owner l2) := by rw [h2]
      rw [this, filter_key_map_setLimit, hfil1]
      simp [setLimit, hr0key.1]
    · intro habs
      rw [habs] at hfil
      cases hfil
    · intro r1 hsel
      rw [hfil] at hsel
      cases hsel
      exact ⟨by rw [h1], by rw [hrows1]; simp⟩

/-- C5 witness: upserting food 100 then food 150 on an empty budgets table
leaves a single food row with limit 150. -/
theorem upsertBudget_convergence_witness :
    ((upsertBudget (upsertBudget emptyBudgetsTable 7 "food" 100).1
        7 "food" 150).1.rows.filter (budgetKeyMatch 7 "food")).map
      (fun r => r.limit_amount) = [150] :=
  (upsertBudget_convergence emptyBudgetsTable 7 "food" 100 150 (by decide)
    (by decide)).1

/-- A second run is the identity on the tightening of a per-step fixed
point (the shape every successful first run leaves behind). -/
theorem initDBRun_fix_of_tighten {t0 : Store} {xu : UsersTable}
    {x1 : Table TxRow} {x2 : Table GoalRow} {x3 : Table CardRow}
    {x4 : Table InvRow} {x5 : Table BudgetRow}
    (hxu : t0.users = some xu) (hpin : t0.pinUnique = true)
    (hxt : t0.transactions = some x1) (ht1 : x1.hasUserId = true)
    (hxg : t0.goals = some x2) (hg1 : x2.hasUserId = true)
    (hxc : t0.cards = some x3) (hc1 : x3.hasUserId = true)
    (hxi : t0.investments = some x4) (hi1 : x4.hasUserId = true)
    (hxb : t0.budgets = some x5) (hb1 : x5.hasUserId = true)
    (hj1 : t0.idxTx = true) (hj2 : t0.idxGoals = true)
    (hj3 : t0.idxCards = true) (hj4 : t0.idxInv = true)
    (hj5 : t0.idxBudgets = true)
    (hck : t0.budgetsCategoryKey = false)
    (hucu : t0.budgetsUserCategoryUnique = true)
    (hf1 : t0.txFk = true) (hf2 : t0.goalsFk = true) (hf3 : t0.cardsFk = true)
    (hf4 : t0.invFk = true) (hf5 : t0.budgetsFk = true)
    (hback : backfillOwner (tightenNotNull t0) = .ok (tightenNotNull t0)) :
    initDBRun (tightenNotNull t0) = (tightenNotNull t0, false) := by
  refine @initDBRun_fix (tightenNotNull t0) xu (tightenT x1) (tightenT x2)
    (tightenT x3) (tightenT x4) (tightenT x5)
    hxu hpin ?_ ?_ ?_ ?_ ?_ ?_ ?_ ?_ ?_ ?_ hj1 hj2 hj3 hj4 hj5 hck hucu
    hf1 hf2 hf3 hf4 hf5 hback (tightenNotNull_idem t0)
  · show t0.transactions.map tightenT = some (tightenT x1)
    rw [hxt]
    rfl
  · rw [tightenT_hasUserId]
    exact ht1
  · show t0.goals.map tightenT = some (tightenT x2)
    rw [hxg]
    rfl
  · rw [tightenT_hasUserId]
    exact hg1
  · show t0.cards.map tightenT = some (tightenT x3)
    rw [hxc]
    rfl
  · rw [tightenT_hasUserId]
    exact hc1
  · show t0.investments.map tightenT = some (tightenT x4)
    rw [hxi]
    rfl
  · rw [tightenT_hasUserId]
    exact hi1
  · show t0.budgets.map tightenT = some (tightenT x5)
    rw [hxb]
    rfl
  · rw [tightenT_hasUserId]
    exact hb1

set_option maxHeartbeats 2000000 in
/-- A second run of `initDB` is the identity on the result of a first
run, whatever the initial store and whether or not the first run caught
an error. -/
theorem initDB_idem (s : Store) : initDB (initDB s) = initDB s := by
  cases hpin : addPinUnique (ensureUsersTable s) with
  | error e =>
    have hrun : initDBRun s = (ensureUsersTable s, true) := by
      unfold initDBRun
      simp only [hpin]
    have h2 : initDBRun (ensureUsersTable s) = (ensureUsersTable s, true) :=
      initDBRun_pin_err rfl hpin
    show (initDBRun (initDBRun s).1).1 = (initDBRun s).1
    rw [hrun]
    show (initDBRun (ensureUsersTable s)).1 = ensureUsersTable s
    rw [h2]
  | ok s2 =>
    have hs2 := addPinUnique_ok hpin
    have hu2 : s2.users = some (s.users.getD {rows := [], seq := 1}) := by
      subst hs2
      rfl
    have h2pin : s2.pinUnique = true := by
      subst hs2
      rfl
    cases hrep : replaceBudgetsUnique (ensureResources s2) with
    | error e =>
      have hrun : initDBRun s = (ensureResources s2, true) := by
        unfold initDBRun
        simp only [hpin, hrep]
      have h2 : initDBRun (ensureResources s2) =
          (ensureResources s2, true) :=
        initDBRun_rep_err hu2 h2pin rfl rfl rfl rfl rfl rfl rfl rfl rfl rfl
          rfl rfl rfl rfl hrep
      show (initDBRun (initDBRun s).1).1 = (initDBRun s).1
      rw [hrun]
      show (initDBRun (ensureResources s2)).1 = ensureResources s2
      rw [h2]
    | ok s8 =>
      have hs8 := replaceBudgetsUnique_ok hrep
      have hu8 : s8.users = some (s.users.getD {rows := [], seq := 1}) := by
        subst hs8
        exact hu2
      have h8pin : s8.pinUnique = true := by
        subst hs8
        exact h2pin
      have h8tx : s8.transactions =
          some (addUserIdColumn (ensureTableT s2.transactions)) := by
        subst hs8
        rfl
      have h8g : s8.goals =
          some (addUserIdColumn (ensureTableT s2.goals)) := by
        subst hs8
        rfl
      have h8c : s8.cards =
          some (addUserIdColumn (ensureTableT s2.cards)) := by
        subst hs8
        rfl
      have h8i : s8.investments =
          some (addUserIdColumn (ensureTableT s2.investments)) := by
        subst hs8
        rfl
      have h8b : s8.budgets =
          some (addUserIdColumn (ensureTableT s2.budgets)) := by
        subst hs8
        rfl
      have h8ck : s8.budgetsCategoryKey = false := by
        subst hs8
        rfl
      have h8ucu : s8.budgetsUserCategoryUnique = true := by
        subst hs8
        rfl
      have h8j1 : s8.idxTx = true := by
        subst hs8
        rfl
      have h8j2 : s8.idxGoals = true := by
        subst hs8
        rfl
      have h8j3 : s8.idxCards = true := by
        subst hs8
        rfl
      have h8j4 : s8.idxInv = true := by
        subst hs8
        rfl
      cases hfk : addForeignKeys (ensureBudgetsIndex s8) with
      | error e =>
        have hrun : initDBRun s = (ensureBudgetsIndex s8, true) := by
          unfold initDBRun
          simp only [hpin, hrep, hfk]
        have h2 : initDBRun (ensureBudgetsIndex s8) =
            (ensureBudgetsIndex s8, true) :=
          initDBRun_fk_err hu8 h8pin h8tx rfl h8g rfl h8c rfl h8i rfl h8b
            rfl h8j1 h8j2 h8j3 h8j4 rfl h8ck h8ucu hfk
        show (initDBRun (initDBRun s).1).1 = (initDBRun s).1
        rw [hrun]
        show (initDBRun (ensureBudgetsIndex s8)).1 = ensureBudgetsIndex s8
        rw [h2]
      | ok s10 =>
        have hs10 := addForeignKeys_ok hfk
        have hu10 : s10.users =
            some (s.users.getD {rows := [], seq := 1}) := by
          subst hs10
          exact hu8
        have h10pin : s10.pinUnique = true := by
          subst hs10
          exact h8pin
        have h10tx : s10.transactions =
            some (addUserIdColumn (ensureTableT s2.transactions)) := by
          subst hs10
          exact h8tx
        have h10g : s10.goals =
            some (addUserIdColumn (ensureTableT s2.goals)) := by
          subst hs10
          exact h8g
        have h10c : s10.cards =
            some (addUserIdColumn (ensureTableT s2.cards)) := by
          subst hs10
          exact h8c
        have h10i : s10.investments =
            some (addUserIdColumn (ensureTableT s2.investments)) := by
          subst hs10
          exact h8i
        have h10b : s10.budgets =
            some (addUserIdColumn (ensureTableT s2.budgets)) := by
          subst hs10
          exact h8b
        have h10ck : s10.budgetsCategoryKey = false := by
          subst hs10
          exact h8ck
        have h10ucu : s10.budgetsUserCategoryUnique = true := by
          subst hs10
          exact h8ucu
        have h10j1 : s10.idxTx = true := by
          subst hs10
          exact h8j1
        have h10j2 : s10.idxGoals = true := by
          subst hs10
          exact h8j2
        have h10j3 : s10.idxCards = true := by
          subst hs10
          exact h8j3
        have h10j4 : s10.idxInv = true := by
          subst hs10
          exact h8j4
        have h10j5 : s10.idxBudgets = true := by
          subst hs10
          rfl
        have h10f1 : s10.txFk = true := by
          subst hs10
          rfl
        have h10f2 : s10.goalsFk = true := by
          subst hs10
          rfl
        have h10f3 : s10.cardsFk = true := by
          subst hs10
          rfl
        have h10f4 : s10.invFk = true := by
          subst hs10
          rfl
        have h10f5 : s10.budgetsFk = true := by
          subst hs10
          rfl
        cases hbf : backfillOwner s10 with
        | error e =>
          have hrun : initDBRun s = (s10, true) := by
            unfold initDBRun runFromBackfill
            simp only [hpin, hrep, hfk, hbf]
          have h2 : initDBRun s10 = (s10, true) :=
            initDBRun_backfill_err hu10 h10pin h10tx rfl h10g rfl h10c rfl
              h10i rfl h10b rfl h10j1 h10j2 h10j3 h10j4 h10j5 h10ck h10ucu
              h10f1 h10f2 h10f3 h10f4 h10f5 hbf
          show (initDBRun (initDBRun s).1).1 = (initDBRun s).1
          rw [hrun]
          show (initDBRun s10).1 = s10
          rw [h2]
        | ok s11 =>
          by_cases hlen : (usersRowsOf s10).length = 1
          · obtain ⟨u, hu⟩ := List.length_eq_one.mp hlen
            have hbb := backfillOwner_single hu
            by_cases hblock : backfillBlocked s10 u.id
            · rw [hbb, if_pos hblock] at hbf
              cases hbf
            · rw [hbb, if_neg hblock] at hbf
              have hs11 : s11 = setResourceRows s10
                  ((txRowsOf s10).map (fillUser u.id))
                  ((goalsRowsOf s10).map (fillUser u.id))
                  ((cardsRowsOf s10).map (fillUser u.id))
                  ((invRowsOf s10).map (fillUser u.id))
                  ((budgetsRowsOf s10).map (fillUser u.id)) :=
                (Except.ok.inj hbf).symm
              subst hs11
              have hbf2 : backfillOwner s10 = .ok (setResourceRows s10
                  ((txRowsOf s10).map (fillUser u.id))
                  ((goalsRowsOf s10).map (fillUser u.id))
                  ((cardsRowsOf s10).map (fillUser u.id))
                  ((invRowsOf s10).map (fillUser u.id))
                  ((budgetsRowsOf s10).map (fillUser u.id))) := by
                rw [hbb, if_neg hblock]
              have hrun : initDBRun s = (tightenNotNull (setResourceRows s10
                  ((txRowsOf s10).map (fillUser u.id))
                  ((goalsRowsOf s10).map (fillUser u.id))
                  ((cardsRowsOf s10).map (fillUser u.id))
                  ((invRowsOf s10).map (fillUser u.id))
                  ((budgetsRowsOf s10).map (fillUser u.id))), false) := by
                unfold initDBRun runFromBackfill
                simp only [hpin, hrep, hfk, hbf2]
              have hXtx : (setResourceRows s10
                  ((txRowsOf s10).map (fillUser u.id))
                  ((goalsRowsOf s10).map (fillUser u.id))
                  ((cardsRowsOf s10).map (fillUser u.id))
                  ((invRowsOf s10).map (fillUser u.id))
                  ((budgetsRowsOf s10).map (fillUser u.id))).transactions =
                  some {addUserIdColumn (ensureTableT s2.transactions) with
                    rows := (txRowsOf s10).map (fillUser u.id)} := by
                simp only [setResourceRows, h10tx, Option.map_some']
              have hXg : (setResourceRows s10
                  ((txRowsOf s10).map (fillUser u.id))
                  ((goalsRowsOf s10).map (fillUser u.id))
                  ((cardsRowsOf s10).map (fillUser u.id))
                  ((invRowsOf s10).map (fillUser u.id))
                  ((budgetsRowsOf s10).map (fillUser u.id))).goals =
                  some {addUserIdColumn (ensureTableT s2.goals) with
                    rows := (goalsRowsOf s10).map (fillUser u.id)} := by
                simp only [setResourceRows, h10g, Option.map_some']
              have hXc : (setResourceRows s10
                  ((txRowsOf s10).map (fillUser u.id))
                  ((goalsRowsOf s10).map (fillUser u.id))
                  ((cardsRowsOf s10).map (fillUser u.id))
                  ((invRowsOf s10).map (fillUser u.id))
                  ((budgetsRowsOf s10).map (fillUser u.id))).cards =
                  some {addUserIdColumn (ensureTableT s2.cards) with
                    rows := (cardsRowsOf s10).map (fillUser u.id)} := by
                simp only [setResourceRows, h10c, Option.map_some']
              have hXi : (setResourceRows s10
                  ((txRowsOf s10).map (fillUser u.id))
                  ((goalsRowsOf s10).map (fillUser u.id))
                  ((cardsRowsOf s10).map (fillUser u.id))
                  ((invRowsOf s10).map (fillUser u.id))
                  ((budgetsRowsOf s10).map (fillUser u.id))).investments =
                  some {addUserIdColumn (ensureTableT s2.investments) with
                    rows := (invRowsOf s10).map (fillUser u.id)} := by
                simp only [setResourceRows, h10i, Option.map_some']
              have hXb : (setResourceRows s10
                  ((txRowsOf s10).map (fillUser u.id))
                  ((goalsRowsOf s10).map (fillUser u.id))
                  ((cardsRowsOf s10).map (fillUser u.id))
                  ((invRowsOf s10).map (fillUser u.id))
                  ((budgetsRowsOf s10).map (fillUser u.id))).budgets =
                  some {addUserIdColumn (ensureTableT s2.budgets) with
                    rows := (budgetsRowsOf s10).map (fillUser u.id)} := by
                simp only [setResourceRows, h10b, Option.map_some']
              obtain ⟨c1, c2, c3, c4, c5, c6⟩ :=
                sameRows_tightenNotNull (setResourceRows s10
                  ((txRowsOf s10).map (fillUser u.id))
                  ((goalsRowsOf s10).map (fillUser u.id))
                  ((cardsRowsOf s10).map (fillUser u.id))
                  ((invRowsOf s10).map (fillUser u.id))
                  ((budgetsRowsOf s10).map (fillUser u.id)))
              have hnodup : (budgetKeys
                  ((budgetsRowsOf s10).map (fillUser u.id))).Nodup := by
                by_contra hn
                exact hblock ⟨h10ucu, hn⟩
              have hback : backfillOwner (tightenNotNull (setResourceRows s10
                  ((txRowsOf s10).map (fillUser u.id))
                  ((goalsRowsOf s10).map (fillUser u.id))
                  ((cardsRowsOf s10).map (fillUser u.id))
                  ((invRowsOf s10).map (fillUser u.id))
                  ((budgetsRowsOf s10).map (fillUser u.id)))) =
                  .ok (tightenNotNull (setResourceRows s10
                  ((txRowsOf s10).map (fillUser u.id))
                  ((goalsRowsOf s10).map (fillUser u.id))
                  ((cardsRowsOf s10).map (fillUser u.id))
                  ((invRowsOf s10).map (fillUser u.id))
                  ((budgetsRowsOf s10).map (fillUser u.id)))) := by
                apply backfillOwner_fix
                · rw [c2, txRowsOf_setResourceRows]
                  rintro r hr
                  obtain ⟨r0, _, rfl⟩ := List.mem_map.mp hr
                  exact fillUser_owns u.id r0
                · rw [c3, goalsRowsOf_setResourceRows]
                  rintro r hr
                  obtain ⟨r0, _, rfl⟩ := List.mem_map.mp hr
                  exact fillUser_owns u.id r0
                · rw [c4, cardsRowsOf_setResourceRows]
                  rintro r hr
                  obtain ⟨r0, _, rfl⟩ := List.mem_map.mp hr
                  exact fillUser_owns u.id r0
                · rw [c5, invRowsOf_setResourceRows]
                  rintro r hr
                  obtain ⟨r0, _, rfl⟩ := List.mem_map.mp hr
                  exact fillUser_owns u.id r0
                · rw [c6, budgetsRowsOf_setResourceRows]
                  rintro r hr
                  obtain ⟨r0, _, rfl⟩ := List.mem_map.mp hr
                  exact fillUser_owns u.id r0
                · intro _
                  rw [c6, budgetsRowsOf_setResourceRows]
                  exact hnodup
              have h2 := @initDBRun_fix_of_tighten
                (setResourceRows s10
                  ((txRowsOf s10).map (fillUser u.id))
                  ((goalsRowsOf s10).map (fillUser u.id))
                  ((cardsRowsOf s10).map (fillUser u.id))
                  ((invRowsOf s10).map (fillUser u.id))
                  ((budgetsRowsOf s10).map (fillUser u.id)))
                _ _ _ _ _ _
                hu10 h10pin hXtx rfl hXg
                rfl hXc rfl hXi rfl hXb rfl h10j1 h10j2 h10j3 h10j4 h10j5
                h10ck h10ucu h10f1 h10f2 h10f3 h10f4 h10f5 hback
              show (initDBRun (initDBRun s).1).1 = (initDBRun s).1
              rw [hrun]
              show (initDBRun (tightenNotNull (setResourceRows s10
                ((txRowsOf s10).map (fillUser u.id))
                ((goalsRowsOf s10).map (fillUser u.id))
                ((cardsRowsOf s10).map (fillUser u.id))
                ((invRowsOf s10).map (fillUser u.id))
                ((budgetsRowsOf s10).map (fillUser u.id))))).1 =
                tightenNotNull (setResourceRows s10
                ((txRowsOf s10).map (fillUser u.id))
                ((goalsRowsOf s10).map (fillUser u.id))
                ((cardsRowsOf s10).map (fillUser u.id))
                ((invRowsOf s10).map (fillUser u.id))
                ((budgetsRowsOf s10).map (fillUser u.id)))
              rw [h2]
          · have hok : backfillOwner s10 = .ok s10 :=
              backfillOwner_not_single hlen
            have hs11 : s11 = s10 := by
              rw [hok] at hbf
              exact (Except.ok.inj hbf).symm
            subst hs11
            have hrun : initDBRun s = (tightenNotNull s11, false) := by
              unfold initDBRun runFromBackfill
              simp only [hpin, hrep, hfk, hok]
            have hback : backfillOwner (tightenNotNull s11) =
                .ok (tightenNotNull s11) :=
              backfillOwner_not_single hlen
            have h2 := initDBRun_fix_of_tighten hu10 h10pin h10tx rfl h10g
              rfl h10c rfl h10i rfl h10b rfl h10j1 h10j2 h10j3 h10j4 h10j5
              h10ck h10ucu h10f1 h10f2 h10f3 h10f4 h10f5 hback
            show (initDBRun (initDBRun s).1).1 = (initDBRun s).1
            rw [hrun]
            show (initDBRun (tightenNotNull s11)).1 = tightenNotNull s11
            rw [h2]

/-- C2: running the migration sequence twice in succession — and more
generally any positive number of consecutive runs — leaves exactly the
store (tables, columns, constraints, indexes, nullability and the full
row set) produced by a single run. -/
theorem initDB_idempotent (s : Store) (n : Nat) :
    initDB^[n + 1] s = initDB s := by
  induction n with
  | zero => rfl
  | succ m hm =>
    rw [Function.iterate_succ_apply']
    rw [hm]
    exact initDB_idem s

/-- C8 witness: two registrations with pin 1234 — the first succeeds, the
second conflicts and adds no row. -/
theorem register_duplicate_pin_witness :
    (register emptyUsersTable "Ana" "1234").2 = PostResult.ok 1 ∧
    (register (register emptyUsersTable "Ana" "1234").1 "Bia" "1234").2 =
      PostResult.conflict :=
  ⟨(register_duplicate_pin emptyUsersTable "Ana" "Bia" "1234" (by decide)
      (by decide) (by decide) (by simp [emptyUsersTable]) (by simp [emptyUsersTable])).1,
    (register_duplicate_pin emptyUsersTable "Ana" "Bia" "1234" (by decide)
      (by decide) (by decide) (by simp [emptyUsersTable]) (by simp [emptyUsersTable])).2.2.1⟩

end Prospera

